import Mathlib

/-!
Verification of the OpenCRVS vital-statistics export generator
(`packages/metrics/src/scripts/VSExportGenerator.ts`).

The script reads FHIR-style documents (Composition, Task, Patient, Encounter,
Observation, RelatedPerson, Location) from a document store and flattens each
eligible Composition into one fixed-schema birth or death CSV row, over a date
range split into calendar-month windows.

This file gives a shallow embedding of that script. Document shapes are
structures with `Option` fields mirroring the optionality of the source's
duck-typed documents. JavaScript behaviours are modelled explicitly:

* property access on `undefined` (e.g. `xs[0].field` on an empty array) is a
  thrown `TypeError`, modelled with `Except String`;
* an optional chain `a?.b` short-circuiting to `undefined` combined with
  `?? ''` is modelled with `Option.getD`;
* `String(undefined)` is the literal string `"undefined"`;
* string truthiness (`''` is falsy) is modelled by `jsTruthyStr`.

The outer per-record `try/catch` of `makeCompositionAndExportCSVReport` maps
an `Except.error` to "record skipped, no row written" (`Option.none`).
-/

namespace VSE

/-! ## JavaScript-semantics helpers -/

/-- The string produced by JavaScript `String(undefined)`. -/
def jsUndef : String := "undefined"

/-- JavaScript `String(x)` for a possibly-undefined string value. -/
def jsStr (o : Option String) : String := o.getD jsUndef

/-- JavaScript `String(x)` / template interpolation for a possibly-undefined
number. -/
def jsIntStr (o : Option Int) : String :=
  match o with
  | none => jsUndef
  | some n => toString n

/-- JavaScript truthiness of a possibly-undefined string: `undefined` and the
empty string are falsy. -/
def jsTruthyStr (o : Option String) : Bool :=
  match o with
  | none => false
  | some s => !(s = "")

/-- JavaScript `s.startsWith(pre)` (on the underlying character lists, so
that proofs can evaluate it). -/
def jsStartsWith (s pre : String) : Bool :=
  pre.data.isPrefixOf s.data

/-- Removal of the first occurrence of `pat` from a character list. -/
def removeFirstAux (pat : List Char) : List Char → List Char
  | [] => []
  | c :: cs =>
    if pat.isPrefixOf (c :: cs) then (c :: cs).drop pat.length
    else c :: removeFirstAux pat cs

/-- JavaScript `s.replace(pat, '')` for a string `pat`: removes the first
occurrence of `pat` from `s` (the source always replaces with `''`). -/
def replaceFirst (s pat : String) : String :=
  String.mk (removeFirstAux pat.data s.data)

/-- JavaScript `Array.prototype.filter` with a predicate that can throw: the
predicate is evaluated left to right and the first thrown error propagates. -/
def exFilter (p : α → Except String Bool) : List α → Except String (List α)
  | [] => .ok []
  | x :: xs =>
    match p x with
    | .error e => .error e
    | .ok b =>
      match exFilter p xs with
      | .error e => .error e
      | .ok rest => .ok (if b then x :: rest else rest)

/-- JavaScript `Array.prototype.find` with a predicate that can throw. -/
def exFind (p : α → Except String Bool) : List α → Except String (Option α)
  | [] => .ok none
  | x :: xs =>
    match p x with
    | .error e => .error e
    | .ok true => .ok (some x)
    | .ok false => exFind p xs

/-! ## FHIR document shapes (as consumed by the script) -/

/-- `fhir.Coding` (only the `code` attribute is consulted). -/
structure Coding where
  code : Option String := none
deriving DecidableEq, Repr

/-- `fhir.CodeableConcept`. -/
structure CodeableConcept where
  coding : Option (List Coding) := none
  text : Option String := none
deriving DecidableEq, Repr

/-- `fhir.Reference`. -/
structure Reference where
  reference : Option String := none
deriving DecidableEq, Repr

/-- `fhir.Extension` (url plus the two value kinds the script reads). -/
structure Extension where
  url : String := ""
  valueString : Option String := none
  valueReference : Option Reference := none
deriving DecidableEq, Repr

/-- `fhir.Address` (only city/district/state are consulted). -/
structure Address where
  city : Option String := none
  district : Option String := none
  state : Option String := none
deriving DecidableEq, Repr

/-- `fhir.Patient`, restricted to the attributes the script reads. -/
structure Patient where
  id : Option String := none
  gender : Option String := none
  birthDate : Option String := none
  deceasedDateTime : Option String := none
  maritalStatus : Option CodeableConcept := none
  multipleBirthInteger : Option Int := none
  address : Option (List Address) := none
  extension : Option (List Extension) := none
deriving DecidableEq, Repr

/-- `fhir.Quantity`. -/
structure Quantity where
  value : Option Int := none
  unit : Option String := none
deriving DecidableEq, Repr

/-- `fhir.Observation`, restricted to the attributes the script reads. -/
structure Observation where
  id : Option String := none
  code : CodeableConcept := {}
  context : Option Reference := none
  valueCodeableConcept : Option CodeableConcept := none
  valueQuantity : Option Quantity := none
  valueString : Option String := none
deriving DecidableEq, Repr

/-- One element of `fhir.Encounter.location`. -/
structure EncounterLocation where
  location : Reference := {}
deriving DecidableEq, Repr

/-- `fhir.Encounter`. -/
structure Encounter where
  id : Option String := none
  location : Option (List EncounterLocation) := none
deriving DecidableEq, Repr

/-- `fhir.Location`. -/
structure Location where
  id : Option String := none
  name : Option String := none
  type : Option CodeableConcept := none
  partOf : Option Reference := none
  address : Option Address := none
deriving DecidableEq, Repr

/-- `fhir.RelatedPerson`. -/
structure RelatedPerson where
  id : Option String := none
  relationship : Option CodeableConcept := none
  patient : Option Reference := none
deriving DecidableEq, Repr

/-- `fhir.Task`. -/
structure Task where
  focus : Option Reference := none
  businessStatus : Option CodeableConcept := none
  extension : Option (List Extension) := none
deriving DecidableEq, Repr

/-- One element of a Composition section's `entry` list. -/
structure Entry where
  reference : Option String := none
deriving DecidableEq, Repr

/-- One section of a `fhir.Composition`. -/
structure Section where
  title : Option String := none
  entry : Option (List Entry) := none
deriving DecidableEq, Repr

/-- `fhir.Composition`, restricted to the projected attributes
(`id`, `title`, `section`; `section` is a Lean keyword, hence `section_`). -/
structure Composition where
  id : Option String := none
  title : Option String := none
  section_ : Option (List Section) := none
deriving DecidableEq, Repr

/-- The document store: one list per collection, in store order. -/
structure Store where
  patients : List Patient := []
  encounters : List Encounter := []
  observations : List Observation := []
  relatedPersons : List RelatedPerson := []
  tasks : List Task := []
deriving Repr

/-! ## Store queries (`getCollectionDocuments` and friends) -/

/-- `getCollectionDocuments`: batch find by id list, with the full-collection
fallback for an empty id list, preserving store order (Mongo `$in`). -/
def getCollectionDocuments (docs : List α) (getId : α → Option String)
    (ids : List String) : List α :=
  if ids.isEmpty then docs
  else docs.filter (fun d => ids.any (fun i => decide (getId d = some i)))

/-- `getObservationDocByEncounterId`: find by exact `context.reference`. -/
def getObservationDocByEncounterId (store : Store) (encounterId : String) :
    List Observation :=
  store.observations.filter
    (fun o => decide ((o.context.bind Reference.reference) = some encounterId))

/-- `getTaskDocByCompositionId`: find by exact `focus.reference`. -/
def getTaskDocByCompositionId (store : Store) (compositionId : String) :
    List Task :=
  store.tasks.filter
    (fun t => decide ((t.focus.bind Reference.reference) = some compositionId))

/-! ## Section-reference guards

The script tests `section.entry?.[0].reference?.startsWith(prefixStr)` (and the
equivalent `typeof section.entry?.[0].reference === 'string' && ...` form).
When `entry` is `undefined` the chain short-circuits to a falsy value; when
`entry` is an empty array, `entry?.[0]` is `undefined` and the `.reference`
access throws a TypeError. -/

/-- The guard `section.entry?.[0].reference?.startsWith(pre)`
(also the `typeof ... === 'string' &&` variant, which behaves identically). -/
def sectionRefStartsWith (pre : String) (s : Section) : Except String Bool :=
  match s.entry with
  | none => .ok false
  | some [] => .error "TypeError"
  | some (e :: _) =>
    match e.reference with
    | none => .ok false
    | some r => .ok (jsStartsWith r pre)

/-- The first entry reference of a section
(`section.entry?.[0].reference`, read after the guard has passed). -/
def sectionFirstRef (s : Section) : Option String :=
  (s.entry.bind List.head?).bind Entry.reference

/-! ## Patient resolution (`makePatientObject`, `setPatientsAddress`,
`setPatientsDetailsInComposition`) -/

/-- Extension URL for the registration office location. -/
def officeLocationExtURL : String :=
  "http://opencrvs.org/specs/extension/regLastOffice"

/-- Extension URL for a patient's occupation. -/
def patientOccupationExtURL : String :=
  "http://opencrvs.org/specs/extension/patient-occupation"

/-- Extension URL for a patient's educational attainment. -/
def patientEduAttainmentExtURL : String :=
  "http://opencrvs.org/specs/extension/educational-attainment"

/-- An apostrophe, built without an apostrophe character literal. -/
def apos : String := (Char.ofNat 39).toString

/-- The section titles of `TITLE_MAP`. -/
def titleChild : String := "Child details"

/-- Section title mapped to the deceased role. -/
def titleDeceased : String := "Deceased details"

/-- Section title mapped to the mother role. -/
def titleMother : String := "Mother" ++ apos ++ "s details"

/-- Section title mapped to the father role. -/
def titleFather : String := "Father" ++ apos ++ "s details"

/-- Section title mapped to the informant role. -/
def titleInformant : String := "Informant" ++ apos ++ "s details"

/-- `getValueFromExt`: returns `''` when the extension list is absent or no
extension matches the URL; otherwise the matched extension's `valueString`
(which may itself be `undefined`, i.e. `none`). -/
def getValueFromExt (ext : Option (List Extension)) (extURL : String) :
    Option String :=
  match ext with
  | none => some ""
  | some l =>
    match l.find? (fun e => decide (e.url = extURL)) with
    | none => some ""
    | some e => e.valueString

/-- The patient snapshot produced by `makePatientObject`. -/
structure IPatient where
  gender : String := ""
  birthDate : String := ""
  deceasedDate : String := ""
  maritalStatus : String := ""
  multipleBirth : Int := 0
  occupation : String := ""
  educational_attainment : String := ""
  city : String := ""
  district : String := ""
  state : String := ""
deriving DecidableEq, Repr

/-- `patient.address?.[0]`: `undefined` address short-circuits; an empty
address array makes the `[0].field` access throw. -/
def headAddr : Option (List Address) → Except String (Option Address)
  | none => .ok none
  | some [] => .error "TypeError"
  | some (a :: _) => .ok (some a)

/-- `makePatientObject`: every missing leaf attribute defaults to `''` / `0`,
but `address?.[0].city` throws when `address` is an empty array. -/
def makePatientObject (p : Patient) : Except String IPatient :=
  match headAddr p.address with
  | .error e => .error e
  | .ok a =>
    .ok { gender := p.gender.getD ""
          birthDate := p.birthDate.getD ""
          deceasedDate := p.deceasedDateTime.getD ""
          maritalStatus := (p.maritalStatus.bind CodeableConcept.text).getD ""
          multipleBirth := p.multipleBirthInteger.getD 0
          occupation := (getValueFromExt p.extension patientOccupationExtURL).getD ""
          educational_attainment :=
            (getValueFromExt p.extension patientEduAttainmentExtURL).getD ""
          city := (a.bind Address.city).getD ""
          district := (a.bind Address.district).getD ""
          state := (a.bind Address.state).getD "" }

/-- The per-patient body of `setPatientsAddress`: if the first address element
has a truthy `district` (resp. `state`) id, replace it with the name of the
Location whose id matches (or `''`). Throws when `address` is `[]` (the
`patient.address[0].district` access). -/
def substAddress (locations : List Location) (p : Patient) :
    Except String Patient :=
  match p.address with
  | none => .ok p
  | some [] => .error "TypeError"
  | some (a :: rest) =>
    let nameOfId := fun (i : String) =>
      ((locations.find? (fun l => decide (l.id = some i))).bind
        Location.name).getD ""
    let a1 :=
      match a.district with
      | none => a
      | some d =>
        if d = "" then a else { a with district := some (nameOfId d) }
    let a2 :=
      match a.state with
      | none => a1
      | some st =>
        if st = "" then a1 else { a1 with state := some (nameOfId st) }
    .ok { p with address := some (a2 :: rest) }

/-- `setPatientsAddress` over a patient list (a `forEach`; the first thrown
error propagates). -/
def setPatientsAddress (patients : List Patient) (locations : List Location) :
    Except String (List Patient) :=
  patients.mapM (substAddress locations)

/-- The role slots filled by `setPatientsDetailsInComposition` into the
`Partial<IFullComposition>` (absent slot = property never assigned). -/
structure IInformant extends IPatient where
  relationship : Option String := none
deriving DecidableEq, Repr

/-- Role-keyed patient snapshots gathered from the Composition's sections. -/
structure Roles where
  child : Option IPatient := none
  deceased : Option IPatient := none
  mother : Option IPatient := none
  father : Option IPatient := none
  informant : Option IInformant := none
deriving DecidableEq, Repr

/-- `fullComposition[TITLE_MAP[section.title]] = makePatientObject(patient)`:
the fixed title-to-role dispatch; an unmapped title assigns nothing.
A patient assigned under the informant title lacks the `relationship`
property. -/
def assignRole (roles : Roles) (title : String) (ip : IPatient) : Roles :=
  if title = titleChild then { roles with child := some ip }
  else if title = titleDeceased then { roles with deceased := some ip }
  else if title = titleMother then { roles with mother := some ip }
  else if title = titleFather then { roles with father := some ip }
  else if title = titleInformant then
    { roles with informant := some { toIPatient := ip, relationship := none } }
  else roles

/-- The `composition.section?.forEach` loop of
`setPatientsDetailsInComposition`. -/
def assignRolesLoop (patients : List Patient) :
    List Section → Roles → Except String Roles
  | [], roles => .ok roles
  | s :: rest, roles =>
    match sectionRefStartsWith "Patient/" s with
    | .error e => .error e
    | .ok false => assignRolesLoop patients rest roles
    | .ok true =>
      let pid := jsStr ((sectionFirstRef s).map
        (fun r => replaceFirst r "Patient/"))
      match patients.find? (fun p => decide (p.id = some pid)) with
      | none => assignRolesLoop patients rest roles
      | some p =>
        match s.title with
        | none => assignRolesLoop patients rest roles
        | some t =>
          if t = "" then assignRolesLoop patients rest roles
          else
            match makePatientObject p with
            | .error e => .error e
            | .ok ip => assignRolesLoop patients rest (assignRole roles t ip)

/-- `setPatientsDetailsInComposition`: batch-fetch all section patients,
substitute address names, then file each under its section-title role.
When the Composition has no `section` attribute at all, the
`patientIds.length` access throws. -/
def setPatientsDetailsInComposition (store : Store) (locations : List Location)
    (sections : Option (List Section)) : Except String Roles :=
  match sections with
  | none => .error "TypeError"
  | some secs =>
    match exFilter (sectionRefStartsWith "Patient/") secs with
    | .error e => .error e
    | .ok patientList =>
      let patientIds := patientList.map
        (fun s => jsStr ((sectionFirstRef s).map
          (fun r => replaceFirst r "Patient/")))
      let patients := getCollectionDocuments store.patients Patient.id patientIds
      match setPatientsAddress patients locations with
      | .error e => .error e
      | .ok patients2 => assignRolesLoop patients2 secs {}

/-! ## Location hierarchy resolution (`setLocationInComposition`) -/

/-- The location fields assigned into the `Partial<IFullComposition>` by
`setLocationInComposition` (the non-health-facility branch never assigns
`healthCenter`). -/
structure LocationInfo where
  healthCenter : Option String := none
  eventDistrict : Option String := none
  eventState : Option String := none
  eventCity : Option String := none
  officeLocation : Option String := none
deriving DecidableEq, Repr

/-- The hierarchy part of `setLocationInComposition` (source lines 327-355):
the health-facility / administrative branch on the leaf's type tag, plus the
city read. Returns (healthCenter when assigned, district name, state name,
city). Throws when the type's `coding` is an empty array
(`type?.coding?.[0].code`). -/
structure HierarchyResult where
  healthCenter : Option String := none
  district : String := ""
  state : String := ""
  city : String := ""
deriving DecidableEq, Repr

/-- `isLocationHealthFacility` and the two resolution branches. -/
def resolveLocationHierarchy (locationDoc : Location)
    (locations : List Location) : Except String HierarchyResult :=
  match
    (match locationDoc.type with
     | none => Except.ok false
     | some cc =>
       match cc.coding with
       | none => Except.ok false
       | some [] => Except.error "TypeError"
       | some (c :: _) =>
         Except.ok (decide (c.code = some "HEALTH_FACILITY"))) with
  | .error e => .error e
  | .ok isLocationHealthFacility =>
    let city := (locationDoc.address.bind Address.city).getD ""
    if isLocationHealthFacility then
      let districtLocationId := jsStr
        ((locationDoc.partOf.bind Reference.reference).map
          (fun r => replaceFirst r "Location/"))
      let districtLocationDoc := locations.find?
        (fun l => decide (l.id = some districtLocationId))
      let stateLocationId := jsStr
        (((districtLocationDoc.bind Location.partOf).bind
          Reference.reference).map (fun r => replaceFirst r "Location/"))
      let stateLocationDoc := locations.find?
        (fun l => decide (l.id = some stateLocationId))
      .ok { healthCenter := some (locationDoc.name.getD "")
            district := (districtLocationDoc.bind Location.name).getD ""
            state := (stateLocationDoc.bind Location.name).getD ""
            city := city }
    else
      let districtLocation := locations.find?
        (fun l => decide (l.id = locationDoc.address.bind Address.district))
      let stateLocation := locations.find?
        (fun l => decide (l.id = locationDoc.address.bind Address.state))
      .ok { healthCenter := none
            district := (districtLocation.bind Location.name).getD ""
            state := (stateLocation.bind Location.name).getD ""
            city := city }

/-- `encounter?.entry?.[0].reference?.replace('Encounter/', '') ?? ''`:
an absent encounter section or absent entry list defaults to `''`; an empty
entry array throws. -/
def encounterIdOf : Option Section → Except String String
  | none => .ok ""
  | some sec =>
    match sec.entry with
    | none => .ok ""
    | some [] => .error "TypeError"
    | some (e :: _) =>
      .ok ((e.reference.map (fun r => replaceFirst r "Encounter/")).getD "")

/-- `setLocationInComposition`: find the encounter section, fetch the
Encounter document (`encounterDoc[0].location` throws when it is missing),
resolve its Location from the preloaded location list (`locationDoc.type`
throws when the find fails), run the hierarchy branch, then resolve the
Task's office-location extension. -/
def setLocationInComposition (store : Store) (locations : List Location)
    (sections : Option (List Section)) (task : Task) :
    Except String LocationInfo :=
  match exFind (sectionRefStartsWith "Encounter/") (sections.getD []) with
  | .error e => .error e
  | .ok encounter =>
    match encounterIdOf encounter with
    | .error e => .error e
    | .ok encounterId =>
      match (getCollectionDocuments store.encounters Encounter.id
          [encounterId]).head? with
      | none => .error "TypeError"
      | some encounterDoc =>
        match
          (match encounterDoc.location with
           | none => Except.ok (none : Option String)
           | some [] => Except.error "TypeError"
           | some (el :: _) =>
             Except.ok ((el.location.reference).map
               (fun r => replaceFirst r "Location/"))) with
        | .error e => .error e
        | .ok locationId =>
          match locations.find? (fun l => decide (l.id = locationId)) with
          | none => .error "TypeError"
          | some locationDoc =>
            match resolveLocationHierarchy locationDoc locations with
            | .error e => .error e
            | .ok h =>
              let officeLocationId :=
                (((task.extension.getD []).find?
                  (fun e => decide (e.url = officeLocationExtURL))).bind
                    Extension.valueReference).bind Reference.reference
                  |>.map (fun r => replaceFirst r "Location/")
              let officeLocation := locations.find?
                (fun l => decide (l.id = officeLocationId))
              .ok { healthCenter := h.healthCenter
                    eventDistrict := some h.district
                    eventState := some h.state
                    eventCity := some h.city
                    officeLocation :=
                      some ((officeLocation.bind Location.name).getD "") }

/-! ## Observation extraction (`setObservationDetailsInComposition`) -/

/-- The observation value bag (`IObservation` in the source). -/
structure IObservation where
  causeOfDeathMethod : String := ""
  birthPluralityOfPregnancy : String := ""
  bodyWeightMeasured : String := ""
  birthAttendantTitle : String := ""
  uncertifiedMannerOfDeath : String := ""
  verbalAutopsyDescription : String := ""
  causeOfDeathEstablished : String := ""
  causeOfDeath : String := ""
  numMaleDependentsOnDeceased : String := ""
  numFemaleDependentsOnDeceased : String := ""
  presentAtBirthReg : String := ""
deriving DecidableEq, Repr

/-- `findCodeInObservation`: returns the observation when its primary
(index-0) coding equals the code, else `undefined`; throws when `coding` is an
empty array (`code.coding?.[0].code`). -/
def findCodeInObservation (o : Observation) (code : String) :
    Except String (Option Observation) :=
  match o.code.coding with
  | none => .ok none
  | some [] => .error "TypeError"
  | some (c :: _) => .ok (if c.code = some code then some o else none)

/-- `valueCodeableConcept?.coding?.[0].code ?? ''`; throws when `coding` is an
empty array. -/
def extractCodeable (ob : Observation) : Except String String :=
  match ob.valueCodeableConcept with
  | none => .ok ""
  | some cc =>
    match cc.coding with
    | none => .ok ""
    | some [] => .error "TypeError"
    | some (c :: _) => .ok (c.code.getD "")

/-- `valueQuantity?.value?.toString() ?? ''`. -/
def extractQuantity (ob : Observation) : Except String String :=
  .ok (match ob.valueQuantity with
       | none => ""
       | some q =>
         match q.value with
         | none => ""
         | some n => toString n)

/-- The template string for body weight:
`` `${vq?.value} ${vq?.unit}` `` (missing parts print as `undefined`). -/
def extractWeight (ob : Observation) : Except String String :=
  .ok (jsIntStr (ob.valueQuantity.bind Quantity.value) ++ " " ++
       jsStr (ob.valueQuantity.bind Quantity.unit))

/-- `valueString ?? ''`. -/
def extractStringVal (ob : Observation) : Except String String :=
  .ok (ob.valueString.getD "")

/-- One `if (matched) { observationObj[field] = extract(matched) }` step of the
observation `forEach` body. -/
def obsStep (o : Observation) (code : String)
    (extract : Observation → Except String String)
    (set : IObservation → String → IObservation) (acc : IObservation) :
    Except String IObservation :=
  match findCodeInObservation o code with
  | .error e => .error e
  | .ok none => .ok acc
  | .ok (some ob) =>
    match extract ob with
    | .error e => .error e
    | .ok v => .ok (set acc v)

/-- Field setter for `causeOfDeathMethod`. -/
def obsSet_causeOfDeathMethod (a : IObservation) (v : String) : IObservation :=
  { a with causeOfDeathMethod := v }

/-- Field setter for `birthPluralityOfPregnancy`. -/
def obsSet_birthPluralityOfPregnancy (a : IObservation) (v : String) : IObservation :=
  { a with birthPluralityOfPregnancy := v }

/-- Field setter for `bodyWeightMeasured`. -/
def obsSet_bodyWeightMeasured (a : IObservation) (v : String) : IObservation :=
  { a with bodyWeightMeasured := v }

/-- Field setter for `birthAttendantTitle`. -/
def obsSet_birthAttendantTitle (a : IObservation) (v : String) : IObservation :=
  { a with birthAttendantTitle := v }

/-- Field setter for `uncertifiedMannerOfDeath`. -/
def obsSet_uncertifiedMannerOfDeath (a : IObservation) (v : String) : IObservation :=
  { a with uncertifiedMannerOfDeath := v }

/-- Field setter for `verbalAutopsyDescription`. -/
def obsSet_verbalAutopsyDescription (a : IObservation) (v : String) : IObservation :=
  { a with verbalAutopsyDescription := v }

/-- Field setter for `causeOfDeathEstablished`. -/
def obsSet_causeOfDeathEstablished (a : IObservation) (v : String) : IObservation :=
  { a with causeOfDeathEstablished := v }

/-- Field setter for `causeOfDeath`. -/
def obsSet_causeOfDeath (a : IObservation) (v : String) : IObservation :=
  { a with causeOfDeath := v }

/-- Field setter for `numMaleDependentsOnDeceased`. -/
def obsSet_numMaleDependentsOnDeceased (a : IObservation) (v : String) : IObservation :=
  { a with numMaleDependentsOnDeceased := v }

/-- Field setter for `numFemaleDependentsOnDeceased`. -/
def obsSet_numFemaleDependentsOnDeceased (a : IObservation) (v : String) : IObservation :=
  { a with numFemaleDependentsOnDeceased := v }

/-- Field setter for `presentAtBirthReg`. -/
def obsSet_presentAtBirthReg (a : IObservation) (v : String) : IObservation :=
  { a with presentAtBirthReg := v }

/-- The body of the `observations.forEach` loop: each code is matched against
the observation and, when matched, the field is overwritten with the
extracted value. -/
def applyObservation (acc : IObservation) (o : Observation) :
    Except String IObservation := do
  let acc ← obsStep o "cause-of-death-method" extractCodeable obsSet_causeOfDeathMethod acc
  let acc ← obsStep o "57722-1" extractQuantity obsSet_birthPluralityOfPregnancy acc
  let acc ← obsStep o "3141-9" extractWeight obsSet_bodyWeightMeasured acc
  let acc ← obsStep o "73764-3" extractStringVal obsSet_birthAttendantTitle acc
  let acc ← obsStep o "uncertified-manner-of-death" extractCodeable obsSet_uncertifiedMannerOfDeath acc
  let acc ← obsStep o "lay-reported-or-verbal-autopsy-description" extractStringVal obsSet_verbalAutopsyDescription acc
  let acc ← obsStep o "cause-of-death-established" extractCodeable obsSet_causeOfDeathEstablished acc
  let acc ← obsStep o "ICD10" extractCodeable obsSet_causeOfDeath acc
  let acc ← obsStep o "num-male-dependents-on-deceased" extractStringVal obsSet_numMaleDependentsOnDeceased acc
  let acc ← obsStep o "num-female-dependents-on-deceased" extractStringVal obsSet_numFemaleDependentsOnDeceased acc
  obsStep o "present-at-birth-reg" extractStringVal obsSet_presentAtBirthReg acc

/-- The `observations.forEach` loop over the fetched observation list. -/
def extractObservations : List Observation → IObservation →
    Except String IObservation
  | [], acc => .ok acc
  | o :: rest, acc =>
    match applyObservation acc o with
    | .error e => .error e
    | .ok acc2 => extractObservations rest acc2

/-- `setObservationDetailsInComposition`: the observation query key is
`String(encounter?.entry?.[0].reference)` (the full, unstripped reference, or
the string `"undefined"`). -/
def setObservationDetailsInComposition (store : Store)
    (sections : Option (List Section)) : Except String IObservation :=
  match exFind (sectionRefStartsWith "Encounter/") (sections.getD []) with
  | .error e => .error e
  | .ok encounter =>
    match
      (match encounter with
       | none => Except.ok jsUndef
       | some sec =>
         match sec.entry with
         | none => Except.ok jsUndef
         | some [] => Except.error "TypeError"
         | some (e :: _) => Except.ok (jsStr e.reference)) with
    | .error e => .error e
    | .ok key =>
      extractObservations (getObservationDocByEncounterId store key) {}

/-! ## Informant resolution (`setInformantDetailsInComposition`) -/

/-- `setInformantDetailsInComposition`: resolve the RelatedPerson section to
its Patient. `relatedPerson?.[0].patient` throws when the RelatedPerson
document is missing; when its `patient` reference is absent the informant slot
is left untouched (`.ok none`). -/
def setInformantDetailsInComposition (store : Store)
    (locations : List Location) (sections : Option (List Section)) :
    Except String (Option IInformant) :=
  match exFind (sectionRefStartsWith "RelatedPerson/") (sections.getD []) with
  | .error e => .error e
  | .ok informant =>
    match
      (match informant with
       | none => Except.ok ""
       | some sec =>
         match sec.entry with
         | none => Except.ok ""
         | some [] => Except.error "TypeError"
         | some (e :: _) =>
           Except.ok ((e.reference.map
             (fun r => replaceFirst r "RelatedPerson/")).getD "")) with
    | .error e => .error e
    | .ok informantId =>
      match (getCollectionDocuments store.relatedPersons RelatedPerson.id
          [informantId]).head? with
      | none => .error "TypeError"
      | some rp =>
        match rp.patient with
        | none => .ok none
        | some pref =>
          let patientId := pref.reference.map
            (fun r => replaceFirst r "Patient/")
          let patientDocs := getCollectionDocuments store.patients Patient.id
            [jsStr patientId]
          match setPatientsAddress patientDocs locations with
          | .error e => .error e
          | .ok patientDocs2 =>
            match patientDocs2.head? with
            | none => .error "TypeError"
            | some firstPatient =>
              match
                (match rp.relationship with
                 | none => Except.ok ""
                 | some cc =>
                   match cc.coding with
                   | none => Except.ok ""
                   | some [] => Except.error "TypeError"
                   | some (c :: _) => Except.ok (c.code.getD "")) with
              | .error e => .error e
              | .ok rel =>
                match makePatientObject firstPatient with
                | .error e => .error e
                | .ok ip =>
                  .ok (some { toIPatient := ip, relationship := some rel })

/-! ## Row building (`IBirthRow` / `IDeathRow` and the assignment blocks of
`makeCompositionAndExportCSVReport`) -/

/-- Event classification (`'Birth' | 'Death'`). -/
inductive EventType
  | Birth
  | Death
deriving DecidableEq, Repr

/-- The `Partial<IFullComposition>` aggregate as it stands when the row is
built: any slot may be absent. -/
structure FullComposition where
  event : EventType := .Death
  child : Option IPatient := none
  mother : Option IPatient := none
  father : Option IPatient := none
  deceased : Option IPatient := none
  informant : Option IInformant := none
  observations : Option IObservation := none
  officeLocation : Option String := none
  healthCenter : Option String := none
  eventDistrict : Option String := none
  eventState : Option String := none
  eventCity : Option String := none
deriving DecidableEq, Repr

/-- The 34-column birth row (`IBirthRow`). -/
structure IBirthRow where
  childGen : String := ""
  childDOB : String := ""
  childOrd : Int := 0
  birthCity : String := ""
  birthState : String := ""
  birthDistrict : String := ""
  healthCenter : String := ""
  officeLocation : String := ""
  birthPluralityOfPregnancy : String := ""
  bodyWeightMeasured : String := ""
  birthAttendantTitle : String := ""
  presentAtBirthReg : String := ""
  motherDOB : String := ""
  motherMaritalStatus : String := ""
  motherOccupation : String := ""
  motherEducationalAttainment : String := ""
  motherCity : String := ""
  motherDistrict : String := ""
  motherState : String := ""
  fatherDOB : String := ""
  fatherMaritalStatus : String := ""
  fatherOccupation : String := ""
  fatherEducationalAttainment : String := ""
  fatherCity : String := ""
  fatherDistrict : String := ""
  fatherState : String := ""
  informantDOB : String := ""
  informantMaritalStatus : String := ""
  informantOccupation : String := ""
  informantEducationalAttainment : String := ""
  informantCity : String := ""
  informantDistrict : String := ""
  informantState : String := ""
  informantRelationship : String := ""
deriving DecidableEq, Repr

/-- The 23-column death row (`IDeathRow`). -/
structure IDeathRow where
  deceasedGen : String := ""
  deceasedDOB : String := ""
  deceasedMaritalStatus : String := ""
  deceasedDate : String := ""
  deathCity : String := ""
  deathState : String := ""
  deathDistrict : String := ""
  healthCenter : String := ""
  officeLocation : String := ""
  uncertifiedMannerOfDeath : String := ""
  verbalAutopsyDescription : String := ""
  causeOfDeathMethod : String := ""
  causeOfDeathEstablished : String := ""
  causeOfDeath : String := ""
  numMaleDependentsOnDeceased : String := ""
  numFemaleDependentsOnDeceased : String := ""
  informantDOB : String := ""
  informantMaritalStatus : String := ""
  informantOccupation : String := ""
  informantCity : String := ""
  informantDistrict : String := ""
  informantState : String := ""
  informantRelationship : String := ""
deriving DecidableEq, Repr

/-- The birth-row assembly: the fully-defaulted scaffold with each column
overwritten by `fullComposition.<path> ?? ''` (or `?? 0`). -/
def buildBirthRow (fc : FullComposition) : IBirthRow :=
  { birthDistrict := fc.eventDistrict.getD ""
    birthState := fc.eventState.getD ""
    birthCity := fc.eventCity.getD ""
    healthCenter := fc.healthCenter.getD ""
    officeLocation := fc.officeLocation.getD ""
    childGen := (fc.child.map IPatient.gender).getD ""
    childDOB := (fc.child.map IPatient.birthDate).getD ""
    childOrd := (fc.child.map IPatient.multipleBirth).getD 0
    motherDOB := (fc.mother.map IPatient.birthDate).getD ""
    motherMaritalStatus := (fc.mother.map IPatient.maritalStatus).getD ""
    motherOccupation := (fc.mother.map IPatient.occupation).getD ""
    motherEducationalAttainment :=
      (fc.mother.map IPatient.educational_attainment).getD ""
    motherCity := (fc.mother.map IPatient.city).getD ""
    motherDistrict := (fc.mother.map IPatient.district).getD ""
    motherState := (fc.mother.map IPatient.state).getD ""
    fatherDOB := (fc.father.map IPatient.birthDate).getD ""
    fatherMaritalStatus := (fc.father.map IPatient.maritalStatus).getD ""
    fatherOccupation := (fc.father.map IPatient.occupation).getD ""
    fatherEducationalAttainment :=
      (fc.father.map IPatient.educational_attainment).getD ""
    fatherCity := (fc.father.map IPatient.city).getD ""
    fatherDistrict := (fc.father.map IPatient.district).getD ""
    fatherState := (fc.father.map IPatient.state).getD ""
    informantDOB := (fc.informant.map (fun i => i.birthDate)).getD ""
    informantMaritalStatus :=
      (fc.informant.map (fun i => i.maritalStatus)).getD ""
    informantOccupation := (fc.informant.map (fun i => i.occupation)).getD ""
    informantEducationalAttainment :=
      (fc.informant.map (fun i => i.educational_attainment)).getD ""
    informantCity := (fc.informant.map (fun i => i.city)).getD ""
    informantDistrict := (fc.informant.map (fun i => i.district)).getD ""
    informantState := (fc.informant.map (fun i => i.state)).getD ""
    informantRelationship :=
      ((fc.informant.bind IInformant.relationship)).getD ""
    birthPluralityOfPregnancy :=
      (fc.observations.map IObservation.birthPluralityOfPregnancy).getD ""
    bodyWeightMeasured :=
      (fc.observations.map IObservation.bodyWeightMeasured).getD ""
    birthAttendantTitle :=
      (fc.observations.map IObservation.birthAttendantTitle).getD ""
    presentAtBirthReg :=
      (fc.observations.map IObservation.presentAtBirthReg).getD "" }

/-- The death-row assembly. Note `deathCity`/`deathState`/`deathDistrict`
come from the deceased patient's own (name-substituted) address, and
`causeOfDeathEstablished` is the truthiness ternary
`fullComposition.observations?.causeOfDeathEstablished ? 'Yes' : 'No'`. -/
def buildDeathRow (fc : FullComposition) : IDeathRow :=
  { healthCenter := fc.healthCenter.getD ""
    officeLocation := fc.officeLocation.getD ""
    deathDistrict := (fc.deceased.map IPatient.district).getD ""
    deathState := (fc.deceased.map IPatient.state).getD ""
    deathCity := (fc.deceased.map IPatient.city).getD ""
    deceasedGen := (fc.deceased.map IPatient.gender).getD ""
    deceasedDOB := (fc.deceased.map IPatient.birthDate).getD ""
    deceasedMaritalStatus := (fc.deceased.map IPatient.maritalStatus).getD ""
    deceasedDate := (fc.deceased.map IPatient.deceasedDate).getD ""
    informantDOB := (fc.informant.map (fun i => i.birthDate)).getD ""
    informantMaritalStatus :=
      (fc.informant.map (fun i => i.maritalStatus)).getD ""
    informantOccupation := (fc.informant.map (fun i => i.occupation)).getD ""
    informantCity := (fc.informant.map (fun i => i.city)).getD ""
    informantDistrict := (fc.informant.map (fun i => i.district)).getD ""
    informantState := (fc.informant.map (fun i => i.state)).getD ""
    informantRelationship :=
      ((fc.informant.bind IInformant.relationship)).getD ""
    uncertifiedMannerOfDeath :=
      (fc.observations.map IObservation.uncertifiedMannerOfDeath).getD ""
    verbalAutopsyDescription :=
      (fc.observations.map IObservation.verbalAutopsyDescription).getD ""
    causeOfDeathMethod :=
      (fc.observations.map IObservation.causeOfDeathMethod).getD ""
    causeOfDeathEstablished :=
      if jsTruthyStr (fc.observations.map IObservation.causeOfDeathEstablished)
      then "Yes" else "No"
    causeOfDeath := (fc.observations.map IObservation.causeOfDeath).getD ""
    numMaleDependentsOnDeceased :=
      (fc.observations.map IObservation.numMaleDependentsOnDeceased).getD ""
    numFemaleDependentsOnDeceased :=
      (fc.observations.map IObservation.numFemaleDependentsOnDeceased).getD "" }

/-! ## CSV headers (`createBirthDeclarationCSVWriter` /
`createDeathDeclarationCSVWriter`): column key paired with the descriptive
header label written as the first record. -/

/-- The birth CSV columns: (internal key, upper-case header label), in file
order. -/
def birthCSVHeader : List (String × String) :=
  [("childGen", "CHILD GENDER"),
   ("childDOB", "CHILD DOB"),
   ("childOrd", "CHILD ORDER"),
   ("birthCity", "BIRTH CITY"),
   ("birthState", "BIRTH STATE"),
   ("birthDistrict", "BIRTH DISTRICT"),
   ("healthCenter", "HEALTH CENTER"),
   ("officeLocation", "OFFICE LOCATION"),
   ("birthPluralityOfPregnancy", "PLURALITY OF PREGNANCY"),
   ("bodyWeightMeasured", "BODY WEIGHT MEASURED"),
   ("birthAttendantTitle", "ATTENDANT TITLE"),
   ("presentAtBirthReg", "PRESENT AT REG"),
   ("motherDOB", "MOTHER DOB"),
   ("motherMaritalStatus", "MOTHER MARITAL STATUS"),
   ("motherOccupation", "MOTHER OCCUPATION"),
   ("motherEducationalAttainment", "MOTHER EDUCATION"),
   ("motherCity", "MOTHER CITY"),
   ("motherDistrict", "MOTHER DISTRICT"),
   ("motherState", "MOTHER STATE"),
   ("fatherDOB", "FATHER DOB"),
   ("fatherMaritalStatus", "FATHER MARITAL STATUS"),
   ("fatherOccupation", "FATHER OCCUPATION"),
   ("fatherEducationalAttainment", "FATHER EDUCATION"),
   ("fatherCity", "FATHER CITY"),
   ("fatherDistrict", "FATHER DISTRICT"),
   ("fatherState", "FATHER STATE"),
   ("informantDOB", "INFORMANT DOB"),
   ("informantMaritalStatus", "INFORMANT MARITAL STATUS"),
   ("informantOccupation", "INFORMANT OCCUPATION"),
   ("informantEducationalAttainment", "INFORMANT EDUCATION"),
   ("informantCity", "INFORMANT CITY"),
   ("informantDistrict", "INFORMANT DISTRICT"),
   ("informantState", "INFORMANT STATE"),
   ("informantRelationship", "INFORMANT RELATIONSHIP")]

/-- The death CSV columns: (internal key, upper-case header label), in file
order. -/
def deathCSVHeader : List (String × String) :=
  [("deceasedGen", "DECEASED GENDER"),
   ("deceasedDOB", "DECEASED DOB"),
   ("deceasedMaritalStatus", "DECEASED MARITAL STATUS"),
   ("deceasedDate", "DECEASED DATE"),
   ("deathCity", "DEATH CITY"),
   ("deathState", "DEATH STATE"),
   ("deathDistrict", "DEATH DISTRICT"),
   ("healthCenter", "HEALTH CENTER"),
   ("officeLocation", "OFFICE LOCATION"),
   ("uncertifiedMannerOfDeath", "UNCERTIFIED MANNER OF DEATH"),
   ("verbalAutopsyDescription", "VERBAL AUTOPSY DESCRIPTION"),
   ("causeOfDeathMethod", "CAUSE OF DEATH METHOD"),
   ("causeOfDeathEstablished", "CAUSE OF DEATH ESTABLISHED"),
   ("causeOfDeath", "CAUSE OF DEATH"),
   ("numMaleDependentsOnDeceased", "NUM MALE DEPENDENTS ON DECEASED"),
   ("numFemaleDependentsOnDeceased", "NUM FEMALE DEPENDENTS ON DECEASED"),
   ("informantDOB", "INFORMANT DOB"),
   ("informantMaritalStatus", "INFORMANT MARITAL STATUS"),
   ("informantOccupation", "INFORMANT OCCUPATION"),
   ("informantCity", "INFORMANT CITY"),
   ("informantDistrict", "INFORMANT DISTRICT"),
   ("informantState", "INFORMANT STATE"),
   ("informantRelationship", "INFORMANT RELATIONSHIP")]

/-! ## The per-record pipeline (`makeCompositionAndExportCSVReport` loop
body) -/

/-- A row appended to one of the two output files. -/
inductive ExportRow
  | birth (row : IBirthRow)
  | death (row : IDeathRow)
deriving DecidableEq, Repr

/-- The section pre-filter
`sec.title && !['Certificates', 'Supporting Documents'].includes(sec.title)`. -/
def goodSectionTitle (s : Section) : Bool :=
  match s.title with
  | none => false
  | some t => !(t = "") && !(t = "Certificates") && !(t = "Supporting Documents")

/-- `const [task] = await getTaskDocByCompositionId(...)`: the first Task
whose `focus.reference` is `Composition/<id>`. -/
def lookupTask (store : Store) (composition : Composition) : Option Task :=
  (getTaskDocByCompositionId store
    ("Composition/" ++ jsStr composition.id)).head?

/-- `task.businessStatus?.coding?.[0].code`; throws when `coding` is an empty
array. -/
def taskBusinessStatus (task : Task) : Except String (Option String) :=
  match task.businessStatus with
  | none => .ok none
  | some cc =>
    match cc.coding with
    | none => .ok none
    | some [] => .error "TypeError"
    | some (c :: _) => .ok c.code

/-- The body of the per-record `try` block: task lookup, business-status gate,
section pre-filter, event classification, the four aggregation steps, then
row building. `.ok none` means the record was filtered out by business
status. -/
def processCompositionE (store : Store) (locations : List Location)
    (composition : Composition) : Except String (Option ExportRow) :=
  match lookupTask store composition with
  | none => .error "TypeError"
  | some task =>
    match taskBusinessStatus task with
    | .error e => .error e
    | .ok businessStatus =>
      if businessStatus = some "CERTIFIED" ∨ businessStatus = some "REGISTERED"
      then
        let sections := composition.section_.map (List.filter goodSectionTitle)
        let event :=
          if composition.title = some "Birth Declaration"
          then EventType.Birth else EventType.Death
        match setPatientsDetailsInComposition store locations sections with
        | .error e => .error e
        | .ok roles =>
          match setLocationInComposition store locations sections task with
          | .error e => .error e
          | .ok locInfo =>
            match setObservationDetailsInComposition store sections with
            | .error e => .error e
            | .ok observations =>
              match setInformantDetailsInComposition store locations sections
                with
              | .error e => .error e
              | .ok informant2 =>
                let fc : FullComposition :=
                  { event := event
                    child := roles.child
                    mother := roles.mother
                    father := roles.father
                    deceased := roles.deceased
                    informant :=
                      match informant2 with
                      | some i => some i
                      | none => roles.informant
                    observations := some observations
                    officeLocation := locInfo.officeLocation
                    healthCenter := locInfo.healthCenter
                    eventDistrict := locInfo.eventDistrict
                    eventState := locInfo.eventState
                    eventCity := locInfo.eventCity }
                match fc.event with
                | .Birth => .ok (some (.birth (buildBirthRow fc)))
                | .Death => .ok (some (.death (buildDeathRow fc)))
      else .ok none

/-- The per-record result after the outer `try/catch`: a thrown error means
the record is skipped and no row is appended to either file. -/
def processComposition (store : Store) (locations : List Location)
    (composition : Composition) : Option ExportRow :=
  match processCompositionE store locations composition with
  | .ok r => r
  | .error _ => none

/-! ## The month-window scheduler (`startScript`)

Dates are calendar triples (year, month, day). The `date-fns` helpers used by
the source are modelled on the proleptic Gregorian calendar:
`differenceInCalendarMonths` is the difference of month indices,
`getDaysInMonth`/`getDate` read the calendar, and `addDays` steps one day at a
time. The loop of `startScript` is `windowsGo`: in every iteration the window
end is the start day advanced to the end of its month
(`addDays(startDate, daysInMonths - dayPassed)`), except the final iteration
where it is the overall end date; the next window starts
`addDays(lastOneMonth, 1)`. -/

/-- A calendar date (year, month 1-12, day 1-31). -/
structure SDate where
  year : Nat
  month : Nat
  day : Nat
deriving DecidableEq, Repr

/-- Gregorian leap-year rule. -/
def isLeapYear (y : Nat) : Bool :=
  (y % 4 == 0 && y % 100 != 0) || (y % 400 == 0)

/-- Days in a Gregorian month. -/
def daysInMonth (y m : Nat) : Nat :=
  if m = 2 then (if isLeapYear y then 29 else 28)
  else if m = 4 ∨ m = 6 ∨ m = 9 ∨ m = 11 then 30
  else 31

/-- A calendar-valid date. -/
def SDate.valid (d : SDate) : Prop :=
  1 ≤ d.month ∧ d.month ≤ 12 ∧ 1 ≤ d.day ∧ d.day ≤ daysInMonth d.year d.month

instance (d : SDate) : Decidable d.valid := by
  unfold SDate.valid; infer_instance

/-- The zero-based month counter (`year * 12 + (month - 1)`). -/
def SDate.monthIndex (d : SDate) : Nat := d.year * 12 + (d.month - 1)

/-- A strictly monotone encoding of the calendar order for valid dates
(days are at most 31 < 32). -/
def SDate.key (d : SDate) : Nat := d.monthIndex * 32 + d.day

instance : LE SDate := ⟨fun a b => a.key ≤ b.key⟩

instance : LT SDate := ⟨fun a b => a.key < b.key⟩

instance : DecidableRel ((· ≤ ·) : SDate → SDate → Prop) :=
  fun a b => inferInstanceAs (Decidable (a.key ≤ b.key))

instance : DecidableRel ((· < ·) : SDate → SDate → Prop) :=
  fun a b => inferInstanceAs (Decidable (a.key < b.key))

/-- Advance a date by one day (Gregorian). -/
def addOneDay (d : SDate) : SDate :=
  if d.day < daysInMonth d.year d.month then ⟨d.year, d.month, d.day + 1⟩
  else if d.month < 12 then ⟨d.year, d.month + 1, 1⟩
  else ⟨d.year + 1, 1, 1⟩

/-- `DateFNS.addDays`. -/
def addDays (d : SDate) : Nat → SDate
  | 0 => d
  | n + 1 => addDays (addOneDay d) n

/-- `DateFNS.differenceInCalendarMonths(e, s)`. -/
def differenceInCalendarMonths (e s : SDate) : Int :=
  (e.monthIndex : Int) - (s.monthIndex : Int)

/-- `DateFNS.getDaysInMonth`. -/
def getDaysInMonth (d : SDate) : Nat := daysInMonth d.year d.month

/-- `DateFNS.getDate` (day of month). -/
def getDate (d : SDate) : Nat := d.day

/-- The `for (let month = 0; ...)` loop of `startScript`, with the number of
remaining iterations as fuel: each iteration emits the window
`(startDate, lastOneMonth)` where `lastOneMonth` is the end of the start's
month (`addDays(startDate, daysInMonths - dayPassed)`) except in the final
iteration, where it is the overall end date; the next start is
`addDays(lastOneMonth, 1)`. -/
def windowsGo (endDate : SDate) : SDate → Nat → List (SDate × SDate)
  | _, 0 => []
  | cur, n + 1 =>
    let lastOneMonth :=
      if n = 0 then endDate else addDays cur (getDaysInMonth cur - getDate cur)
    (cur, lastOneMonth) :: windowsGo endDate (addDays lastOneMonth 1) n

/-- The full window list produced by `startScript` for the inclusive range
`[startDate, endDate]`
(`totalMonths = differenceInCalendarMonths(endDate, startDate) + 1`). -/
def vsExportWindows (startDate endDate : SDate) : List (SDate × SDate) :=
  windowsGo endDate startDate
    ((differenceInCalendarMonths endDate startDate + 1).toNat)

/-- The last day of a date's month. -/
def endOfMonth (d : SDate) : SDate :=
  ⟨d.year, d.month, daysInMonth d.year d.month⟩

/-- The first day of the following month. -/
def nextMonthStart (d : SDate) : SDate :=
  if d.month < 12 then ⟨d.year, d.month + 1, 1⟩ else ⟨d.year + 1, 1, 1⟩

/-! ## Pure mirror of the observation extractor

Under the well-formedness condition `obsWF` (no empty `coding` arrays, which
would make the extractor throw), the fallible extractor agrees with a total
fold; the pure layer makes the last-match-wins behaviour provable once,
generically in the field. -/

/-- The primary (index-0) coding code of an observation, when the coding list
is present and nonempty. -/
def primaryCode (o : Observation) : Option String :=
  match o.code.coding with
  | some (c :: _) => c.code
  | _ => none

/-- Well-formedness of an observation document: neither its `code.coding` nor
its value's `coding` is an empty array (either would make the extractor's
`coding?.[0].code` access throw). -/
def obsWF (o : Observation) : Bool :=
  !(o.code.coding = some []) &&
  (match o.valueCodeableConcept with
   | some cc => !(cc.coding = some [])
   | none => true)

/-- Total version of `extractCodeable` (agrees under `obsWF`). -/
def extractCodeablePure (ob : Observation) : String :=
  match ob.valueCodeableConcept with
  | none => ""
  | some cc =>
    match cc.coding with
    | some (c :: _) => c.code.getD ""
    | _ => ""

/-- Total version of `extractQuantity`. -/
def extractQuantityPure (ob : Observation) : String :=
  match ob.valueQuantity with
  | none => ""
  | some q =>
    match q.value with
    | none => ""
    | some n => toString n

/-- Total version of `extractWeight`. -/
def extractWeightPure (ob : Observation) : String :=
  jsIntStr (ob.valueQuantity.bind Quantity.value) ++ " " ++
  jsStr (ob.valueQuantity.bind Quantity.unit)

/-- Total version of `extractStringVal`. -/
def extractStringPure (ob : Observation) : String :=
  ob.valueString.getD ""

/-- Pure mirror of `obsStep`. -/
def obsStepPure (o : Observation) (code : String)
    (extract : Observation → String)
    (set : IObservation → String → IObservation) (acc : IObservation) :
    IObservation :=
  if primaryCode o = some code then set acc (extract o) else acc

/-- Pure mirror of `applyObservation`. -/
def applyObservationPure (acc : IObservation) (o : Observation) :
    IObservation :=
  let acc := obsStepPure o "cause-of-death-method" extractCodeablePure obsSet_causeOfDeathMethod acc
  let acc := obsStepPure o "57722-1" extractQuantityPure obsSet_birthPluralityOfPregnancy acc
  let acc := obsStepPure o "3141-9" extractWeightPure obsSet_bodyWeightMeasured acc
  let acc := obsStepPure o "73764-3" extractStringPure obsSet_birthAttendantTitle acc
  let acc := obsStepPure o "uncertified-manner-of-death" extractCodeablePure obsSet_uncertifiedMannerOfDeath acc
  let acc := obsStepPure o "lay-reported-or-verbal-autopsy-description" extractStringPure obsSet_verbalAutopsyDescription acc
  let acc := obsStepPure o "cause-of-death-established" extractCodeablePure obsSet_causeOfDeathEstablished acc
  let acc := obsStepPure o "ICD10" extractCodeablePure obsSet_causeOfDeath acc
  let acc := obsStepPure o "num-male-dependents-on-deceased" extractStringPure obsSet_numMaleDependentsOnDeceased acc
  let acc := obsStepPure o "num-female-dependents-on-deceased" extractStringPure obsSet_numFemaleDependentsOnDeceased acc
  obsStepPure o "present-at-birth-reg" extractStringPure obsSet_presentAtBirthReg acc

/-- Pure mirror of `extractObservations`. -/
def extractObservationsPure : List Observation → IObservation → IObservation
  | [], acc => acc
  | o :: rest, acc => extractObservationsPure rest (applyObservationPure acc o)

/-- The last element of the list satisfying the predicate (spec vocabulary for
the amended last-match-wins statement of the extractor). -/
def lastMatch (g : Observation → Bool) : List Observation → Option Observation
  | [] => none
  | o :: t =>
    match lastMatch g t with
    | some o2 => some o2
    | none => if g o then some o else none

/-- Whether an observation's primary coding equals the configured code. -/
def matchesCode (code : String) (o : Observation) : Bool :=
  decide (primaryCode o = some code)

/-- The value the extractor ends up with for one configured code: the
extraction applied to the last matching observation, or the empty default. -/
def lastMatchValue (code : String) (extract : Observation → String)
    (l : List Observation) : String :=
  match lastMatch (matchesCode code) l with
  | some o => extract o
  | none => ""

/-! ## Pure mirror of `makePatientObject` (for the defaulting statement) -/

/-- Total version of `makePatientObject` (agrees whenever the patient's
address list is not the empty array). -/
def makePatientObjectPure (p : Patient) : IPatient :=
  { gender := p.gender.getD ""
    birthDate := p.birthDate.getD ""
    deceasedDate := p.deceasedDateTime.getD ""
    maritalStatus := (p.maritalStatus.bind CodeableConcept.text).getD ""
    multipleBirth := p.multipleBirthInteger.getD 0
    occupation := (getValueFromExt p.extension patientOccupationExtURL).getD ""
    educational_attainment :=
      (getValueFromExt p.extension patientEduAttainmentExtURL).getD ""
    city := ((p.address.bind List.head?).bind Address.city).getD ""
    district := ((p.address.bind List.head?).bind Address.district).getD ""
    state := ((p.address.bind List.head?).bind Address.state).getD "" }

/-! ## Spec-side definitions for the location-hierarchy claim (C7)

`hierarchySpec` follows the wording of spec section 4.4; the theorem for C7
proves the source's `resolveLocationHierarchy` refines it. -/

/-- Well-formedness of a Location's type tag: its `coding`, when present, is
not an empty array (which would make the health-facility test throw). -/
def locTypeWF (loc : Location) : Bool :=
  match loc.type with
  | some cc => !(cc.coding = some [])
  | none => true

/-- Spec reading of "type tag is health-facility". -/
def specIsHealthFacility (leaf : Location) : Bool :=
  match leaf.type with
  | some cc =>
    match cc.coding with
    | some (c :: _) => decide (c.code = some "HEALTH_FACILITY")
    | _ => false
  | none => false

/-- Spec reading of "the Location whose id equals ..." (no id: no location). -/
def specFindById (locations : List Location) (oid : Option String) :
    Option Location :=
  oid.bind (fun i => locations.find? (fun l => decide (l.id = some i)))

/-- The name of the Location with the given id, defaulting to `''`. -/
def locationNameOfId (locations : List Location) (i : String) : String :=
  ((locations.find? (fun l => decide (l.id = some i))).bind
    Location.name).getD ""

/-- The id carried by a Location's `partOf` reference. -/
def specPartOfId (loc : Location) : Option String :=
  (loc.partOf.bind Reference.reference).map (fun r => replaceFirst r "Location/")

/-- The district/state/city triple described in spec section 4.4. -/
structure SpecHierarchy where
  district : String := ""
  state : String := ""
  city : String := ""
deriving DecidableEq, Repr

/-- Modelled from the spec wording of section 4.4: for a health-facility leaf,
district is the Location whose id equals the leaf's `partOf` and state the
Location whose id equals the district's `partOf` (missing ancestor: empty
name); for any other leaf, district/state are the Locations whose ids equal
the leaf's own `address.district` / `address.state`; city always comes from
the leaf's own address. -/
def hierarchySpec (leaf : Location) (locations : List Location) :
    SpecHierarchy :=
  let city := (leaf.address.bind Address.city).getD ""
  if specIsHealthFacility leaf then
    let district := specFindById locations (specPartOfId leaf)
    let state := specFindById locations (district.bind specPartOfId)
    { district := (district.bind Location.name).getD ""
      state := (state.bind Location.name).getD ""
      city := city }
  else
    let district := specFindById locations (leaf.address.bind Address.district)
    let state := specFindById locations (leaf.address.bind Address.state)
    { district := (district.bind Location.name).getD ""
      state := (state.bind Location.name).getD ""
      city := city }

/-! ## Claim-statement helper predicates -/

/-- No section's first entry reference starts with `Encounter/` (the premise
of claim C1). -/
def noEncounterRef (s : Section) : Bool :=
  match s.entry with
  | some (e :: _) =>
    match e.reference with
    | some r => !(jsStartsWith r "Encounter/")
    | none => true
  | _ => true

/-- The windows property claimed for the scheduler (C4): window count is the
calendar-month difference plus one; every window is ordered; consecutive
windows are contiguous (each next window starts the day after the previous
end); windows are pairwise disjoint; every non-final window ends on the last
day of its starting month; the final window ends exactly at the end date; the
first window starts at the start date; and the windows cover exactly the
valid dates of `[s, e]`. -/
def WindowsClaim (s e : SDate) : Prop :=
  (vsExportWindows s e).length =
      (differenceInCalendarMonths e s).toNat + 1 ∧
  (∀ w ∈ vsExportWindows s e, w.1 ≤ w.2) ∧
  List.Chain' (fun a b => b.1 = addDays a.2 1) (vsExportWindows s e) ∧
  List.Pairwise (fun a b => a.2 < b.1) (vsExportWindows s e) ∧
  (∀ w ∈ (vsExportWindows s e).dropLast, w.2 = endOfMonth w.1) ∧
  (∃ p, (vsExportWindows s e).getLast? = some p ∧ p.2 = e) ∧
  (∃ p, (vsExportWindows s e).head? = some p ∧ p.1 = s) ∧
  (∀ d : SDate, d.valid →
    ((s ≤ d ∧ d ≤ e) ↔ ∃ w ∈ vsExportWindows s e, w.1 ≤ d ∧ d ≤ w.2))

/-! ## Concrete records for counterexamples and witnesses -/

/-- A registered task focused on composition `c1`. -/
def cexTask : Task :=
  { focus := some ⟨some "Composition/c1"⟩
    businessStatus := some { coding := some [⟨some "REGISTERED"⟩] } }

/-- A child patient document. -/
def cexChildPatient : Patient :=
  { id := some "p1", gender := some "male", birthDate := some "2022-02-01" }

/-- A birth Composition with a child section but no Encounter section. -/
def cexNoEncounterComp : Composition :=
  { id := some "c1"
    title := some "Birth Declaration"
    section_ := some [{ title := some titleChild
                        entry := some [⟨some "Patient/p1"⟩] }] }

/-- Store holding the patient and task for `cexNoEncounterComp` but no
Encounter documents. -/
def cexNoEncounterStore : Store :=
  { patients := [cexChildPatient], tasks := [cexTask] }

/-- Two observations sharing the birth-attendant code `73764-3` with
different string values (for the first-versus-last counterexample). -/
def cexObsFirst : Observation :=
  { code := { coding := some [⟨some "73764-3"⟩] }
    valueString := some "Midwife" }

/-- The second observation with the same code. -/
def cexObsLast : Observation :=
  { code := { coding := some [⟨some "73764-3"⟩] }
    valueString := some "Doctor" }

/-- A patient whose `address` is an empty array: `address?.[0].city` throws. -/
def cexEmptyAddrPatient : Patient :=
  { id := some "p2", gender := some "female", address := some [] }

/-- Sections containing a RelatedPerson reference whose document is absent
from the store. -/
def cexInformantSections : List Section :=
  [{ title := some titleInformant, entry := some [⟨some "RelatedPerson/r1"⟩] }]

/-- An observation matching the cause-of-death-established code whose
coded-concept value carries the empty-string code. -/
def cexCodObs : Observation :=
  { code := { coding := some [⟨some "cause-of-death-established"⟩] }
    valueCodeableConcept := some { coding := some [⟨some ""⟩] } }

/-- A task whose business status is neither CERTIFIED nor REGISTERED. -/
def cexInProgressTask : Task :=
  { focus := some ⟨some "Composition/c1"⟩
    businessStatus := some { coding := some [⟨some "IN_PROGRESS"⟩] } }

/-- Store holding only `cexInProgressTask`. -/
def cexInProgressStore : Store := { tasks := [cexInProgressTask] }

/-- A health-facility leaf location whose `partOf` points at `l2`. -/
def cexLeafHF : Location :=
  { id := some "l1"
    name := some "Clinic A"
    type := some { coding := some [⟨some "HEALTH_FACILITY"⟩] }
    partOf := some ⟨some "Location/l2"⟩
    address := some { city := some "CityX" } }

/-- A district location whose `partOf` points at `l3`. -/
def cexDistrictLoc : Location :=
  { id := some "l2", name := some "District D"
    partOf := some ⟨some "Location/l3"⟩ }

/-- A state location. -/
def cexStateLoc : Location := { id := some "l3", name := some "State S" }

/-- The location set used by the hierarchy witness. -/
def cexLocations : List Location := [cexLeafHF, cexDistrictLoc, cexStateLoc]

/-- The maximally-empty aggregate (only the event tag is set). -/
def emptyFC : FullComposition := { event := EventType.Birth }

/-- A patient with one address element whose district id is `l2` and whose
state is absent (for the name-substitution witness). -/
def cexSubstPatient : Patient :=
  { id := some "p3"
    address := some [{ city := some "IC", district := some "l2" }] }

/-- A death aggregate whose observation bag is the all-empty default. -/
def cexCodFC : FullComposition :=
  { event := EventType.Death
    observations := some {} }

/-! # Theorems -/

/-! ## General helper lemmas -/

theorem except_bind_ok (a : α) (f : α → Except String β) :
    ((Except.ok a : Except String α) >>= f) = f a := rfl

/-! ## C3: output headers -/

/-- C3, counterexample: the birth output header does not have 32 columns. -/
theorem C3_counterexample : birthCSVHeader.length ≠ 32 := by decide

/-- C3 (amended): the birth output file has a fixed, ordered header of
exactly 34 columns and the death output file one of exactly 23 columns; every
header label is upper-case (fixed under `toUpper`) and distinct from its
internal column key. -/
theorem C3_amended_headers :
    birthCSVHeader.length = 34 ∧ deathCSVHeader.length = 23 ∧
    (birthCSVHeader.all fun p =>
      (p.2.data.all fun ch => !ch.isLower) && !(p.1 == p.2)) = true ∧
    (deathCSVHeader.all fun p =>
      (p.2.data.all fun ch => !ch.isLower) && !(p.1 == p.2)) = true := by
  refine ⟨rfl, rfl, ?_, ?_⟩ <;> decide

/-! ## C6: the causeOfDeathEstablished rendering -/

/-- C6, counterexample: an Observation whose primary coding matches the
cause-of-death-established code and whose coded-concept value carries the
empty-string code is matched by the extractor (so a value is extracted), yet
the death row renders `"No"`; the claim (spec scenario D: at least one
matching coded-concept observation implies `"Yes"`) fails here. -/
theorem C6_counterexample :
    findCodeInObservation cexCodObs "cause-of-death-established" =
      .ok (some cexCodObs) ∧
    extractObservations [cexCodObs] {} = .ok {} ∧
    (buildDeathRow cexCodFC).causeOfDeathEstablished = "No" := by
  exact ⟨rfl, rfl, rfl⟩

/-- C6 (amended): the death row's `causeOfDeathEstablished` column is always
the literal `"Yes"` or `"No"` (never a raw code), and it is `"Yes"` exactly
when the extracted cause-of-death-established string is nonempty; a matching
observation whose extracted code is empty still renders `"No"` (JavaScript
string truthiness). -/
theorem C6_amended_yes_iff_nonempty (fc : FullComposition) :
    ((buildDeathRow fc).causeOfDeathEstablished = "Yes" ∨
      (buildDeathRow fc).causeOfDeathEstablished = "No") ∧
    ((buildDeathRow fc).causeOfDeathEstablished = "Yes" ↔
      ∃ ob, fc.observations = some ob ∧ ob.causeOfDeathEstablished ≠ "") := by
  cases h : fc.observations with
  | none => simp [buildDeathRow, h, jsTruthyStr]
  | some ob =>
    by_cases he : ob.causeOfDeathEstablished = "" <;>
      simp [buildDeathRow, h, jsTruthyStr, he]

/-! ## C9: row builder default scaffolding -/

/-- C9: every column of the birth/death row that is not derivable from the
FullComposition (its source slot is absent) holds its scaffold default of the
empty string (`0` for `childOrd`); the always-assigned
`causeOfDeathEstablished` renders `"No"` when the observation bag is absent.
Both rows are total record values, so the column set never varies. -/
theorem C9_rowbuilder_defaults (fc : FullComposition) :
    (fc.eventDistrict = none → (buildBirthRow fc).birthDistrict = "") ∧
    (fc.eventState = none → (buildBirthRow fc).birthState = "") ∧
    (fc.eventCity = none → (buildBirthRow fc).birthCity = "") ∧
    (fc.healthCenter = none → (buildBirthRow fc).healthCenter = "" ∧
      (buildDeathRow fc).healthCenter = "") ∧
    (fc.officeLocation = none → (buildBirthRow fc).officeLocation = "" ∧
      (buildDeathRow fc).officeLocation = "") ∧
    (fc.child = none → (buildBirthRow fc).childGen = "" ∧
      (buildBirthRow fc).childDOB = "" ∧ (buildBirthRow fc).childOrd = 0) ∧
    (fc.mother = none → (buildBirthRow fc).motherDOB = "" ∧
      (buildBirthRow fc).motherMaritalStatus = "" ∧
      (buildBirthRow fc).motherOccupation = "" ∧
      (buildBirthRow fc).motherEducationalAttainment = "" ∧
      (buildBirthRow fc).motherCity = "" ∧
      (buildBirthRow fc).motherDistrict = "" ∧
      (buildBirthRow fc).motherState = "") ∧
    (fc.father = none → (buildBirthRow fc).fatherDOB = "" ∧
      (buildBirthRow fc).fatherMaritalStatus = "" ∧
      (buildBirthRow fc).fatherOccupation = "" ∧
      (buildBirthRow fc).fatherEducationalAttainment = "" ∧
      (buildBirthRow fc).fatherCity = "" ∧
      (buildBirthRow fc).fatherDistrict = "" ∧
      (buildBirthRow fc).fatherState = "") ∧
    (fc.informant = none → (buildBirthRow fc).informantDOB = "" ∧
      (buildBirthRow fc).informantMaritalStatus = "" ∧
      (buildBirthRow fc).informantOccupation = "" ∧
      (buildBirthRow fc).informantEducationalAttainment = "" ∧
      (buildBirthRow fc).informantCity = "" ∧
      (buildBirthRow fc).informantDistrict = "" ∧
      (buildBirthRow fc).informantState = "" ∧
      (buildBirthRow fc).informantRelationship = "" ∧
      (buildDeathRow fc).informantDOB = "" ∧
      (buildDeathRow fc).informantMaritalStatus = "" ∧
      (buildDeathRow fc).informantOccupation = "" ∧
      (buildDeathRow fc).informantCity = "" ∧
      (buildDeathRow fc).informantDistrict = "" ∧
      (buildDeathRow fc).informantState = "" ∧
      (buildDeathRow fc).informantRelationship = "") ∧
    (fc.deceased = none → (buildDeathRow fc).deceasedGen = "" ∧
      (buildDeathRow fc).deceasedDOB = "" ∧
      (buildDeathRow fc).deceasedMaritalStatus = "" ∧
      (buildDeathRow fc).deceasedDate = "" ∧
      (buildDeathRow fc).deathCity = "" ∧
      (buildDeathRow fc).deathState = "" ∧
      (buildDeathRow fc).deathDistrict = "") ∧
    (fc.observations = none →
      (buildBirthRow fc).birthPluralityOfPregnancy = "" ∧
      (buildBirthRow fc).bodyWeightMeasured = "" ∧
      (buildBirthRow fc).birthAttendantTitle = "" ∧
      (buildBirthRow fc).presentAtBirthReg = "" ∧
      (buildDeathRow fc).uncertifiedMannerOfDeath = "" ∧
      (buildDeathRow fc).verbalAutopsyDescription = "" ∧
      (buildDeathRow fc).causeOfDeathMethod = "" ∧
      (buildDeathRow fc).causeOfDeath = "" ∧
      (buildDeathRow fc).numMaleDependentsOnDeceased = "" ∧
      (buildDeathRow fc).numFemaleDependentsOnDeceased = "" ∧
      (buildDeathRow fc).causeOfDeathEstablished = "No") :=
  ⟨fun h => by simp [buildBirthRow, h],
   fun h => by simp [buildBirthRow, h],
   fun h => by simp [buildBirthRow, h],
   fun h => by simp [buildBirthRow, buildDeathRow, h],
   fun h => by simp [buildBirthRow, buildDeathRow, h],
   fun h => by simp [buildBirthRow, h],
   fun h => by simp [buildBirthRow, h],
   fun h => by simp [buildBirthRow, h],
   fun h => by simp [buildBirthRow, buildDeathRow, h],
   fun h => by simp [buildDeathRow, h],
   fun h => by simp [buildBirthRow, buildDeathRow, h, jsTruthyStr]⟩

/-- C9 witness: the maximally-empty aggregate yields the fully-defaulted
rows. -/
theorem C9_witness :
    (buildBirthRow emptyFC).childGen = "" ∧
    (buildBirthRow emptyFC).childOrd = 0 ∧
    (buildDeathRow emptyFC).deathDistrict = "" ∧
    (buildDeathRow emptyFC).causeOfDeathEstablished = "No" := by
  have h := C9_rowbuilder_defaults emptyFC
  exact ⟨(h.2.2.2.2.2.1 rfl).1, (h.2.2.2.2.2.1 rfl).2.2,
    (h.2.2.2.2.2.2.2.2.2.1 rfl).2.2.2.2.2.2,
    (h.2.2.2.2.2.2.2.2.2.2 rfl).2.2.2.2.2.2.2.2.2.2⟩

/-! ## C10: death-row address provenance -/

/-- C10: the death row ignores the resolved event-location triple entirely
(updating `eventDistrict`/`eventState`/`eventCity` leaves the row unchanged);
the `deathDistrict`/`deathState`/`deathCity` columns come from the deceased
patient's own snapshot; and `setPatientsAddress` substitutes a patient's
district id with the matching Location's name before the snapshot is taken. -/
theorem C10_death_address_from_deceased :
    (∀ (fc : FullComposition) (d s c : Option String),
      buildDeathRow
        { fc with eventDistrict := d, eventState := s, eventCity := c } =
        buildDeathRow fc) ∧
    (∀ fc : FullComposition,
      (buildDeathRow fc).deathDistrict =
        (fc.deceased.map IPatient.district).getD "" ∧
      (buildDeathRow fc).deathState =
        (fc.deceased.map IPatient.state).getD "" ∧
      (buildDeathRow fc).deathCity =
        (fc.deceased.map IPatient.city).getD "") ∧
    (∀ (locations : List Location) (p : Patient) (a : Address)
        (rest : List Address) (dd : String),
      p.address = some (a :: rest) → a.district = some dd → dd ≠ "" →
      a.state = none →
      substAddress locations p =
        .ok { p with
          address := some ({ a with
            district := some (locationNameOfId locations dd) } :: rest) }) :=
  ⟨fun _ _ _ _ => rfl,
   fun _ => ⟨rfl, rfl, rfl⟩,
   fun locations p a rest dd h1 h2 h3 h4 => by
    simp [substAddress, h1, h2, h3, h4, locationNameOfId]⟩

/-- C10 witness: a deceased-style patient whose district id `l2` is
substituted with the district Location's name. -/
theorem C10_witness :
    substAddress [cexDistrictLoc] cexSubstPatient =
      .ok { cexSubstPatient with
        address := some [{ city := some "IC", district := some "District D" }] } := by
  have h := C10_death_address_from_deceased.2.2 [cexDistrictLoc]
    cexSubstPatient { city := some "IC", district := some "l2" } [] "l2"
    rfl rfl (by decide) rfl
  exact h.trans rfl

/-! ## C5: silent defaulting versus thrown resolution failures -/

/-- C5, counterexample: a missing referenced RelatedPerson document makes the
informant step throw (`relatedPerson?.[0].patient`), and a patient whose
address is an empty array makes `makePatientObject` throw
(`address?.[0].city`); the record is skipped, not defaulted. -/
theorem C5_counterexample :
    setInformantDetailsInComposition {} [] (some cexInformantSections) =
      .error "TypeError" ∧
    makePatientObject cexEmptyAddrPatient = .error "TypeError" := by
  exact ⟨rfl, rfl⟩

/-- C5 (amended): individual missing leaf fields (attributes, extensions,
address components) do default silently to the empty string / zero — for any
patient whose address list is not the empty array, `makePatientObject`
succeeds and each missing attribute yields its empty default. (Missing
referenced documents, by contrast, throw: see the counterexample.) -/
theorem C5_amended_leaf_defaulting (p : Patient) (h : p.address ≠ some []) :
    makePatientObject p = .ok (makePatientObjectPure p) ∧
    (p.gender = none → (makePatientObjectPure p).gender = "") ∧
    (p.birthDate = none → (makePatientObjectPure p).birthDate = "") ∧
    (p.deceasedDateTime = none → (makePatientObjectPure p).deceasedDate = "") ∧
    (p.maritalStatus = none → (makePatientObjectPure p).maritalStatus = "") ∧
    (p.multipleBirthInteger = none →
      (makePatientObjectPure p).multipleBirth = 0) ∧
    (p.extension = none → (makePatientObjectPure p).occupation = "" ∧
      (makePatientObjectPure p).educational_attainment = "") ∧
    (p.address = none → (makePatientObjectPure p).city = "" ∧
      (makePatientObjectPure p).district = "" ∧
      (makePatientObjectPure p).state = "") := by
  refine ⟨?_, fun h2 => by simp [makePatientObjectPure, h2],
    fun h2 => by simp [makePatientObjectPure, h2],
    fun h2 => by simp [makePatientObjectPure, h2],
    fun h2 => by simp [makePatientObjectPure, h2],
    fun h2 => by simp [makePatientObjectPure, h2],
    fun h2 => by simp [makePatientObjectPure, getValueFromExt, h2],
    fun h2 => by simp [makePatientObjectPure, h2]⟩
  cases ha : p.address with
  | none => simp [makePatientObject, headAddr, ha, makePatientObjectPure]
  | some l =>
    cases l with
    | nil => exact absurd ha h
    | cons a t =>
      simp [makePatientObject, headAddr, ha, makePatientObjectPure]

/-- C5 witness: a concrete patient with absent address and gender resolves to
the defaulted snapshot without raising. -/
theorem C5_witness :
    makePatientObject cexChildPatient =
      .ok (makePatientObjectPure cexChildPatient) ∧
    (makePatientObjectPure cexChildPatient).city = "" ∧
    (makePatientObjectPure cexChildPatient).maritalStatus = "" := by
  have h := C5_amended_leaf_defaulting cexChildPatient (by decide)
  exact ⟨h.1, (h.2.2.2.2.2.2.2 rfl).1, h.2.2.2.2.1 rfl⟩

/-! ## C2: observation code matching (last match wins) -/

theorem extractCodeable_ok (o : Observation) (hwf : obsWF o = true) :
    extractCodeable o = .ok (extractCodeablePure o) := by
  unfold extractCodeable extractCodeablePure
  cases hv : o.valueCodeableConcept with
  | none => rfl
  | some cc =>
    cases hc : cc.coding with
    | none => simp [hc]
    | some l =>
      cases l with
      | nil =>
        exfalso
        simp [obsWF, hv, hc] at hwf
      | cons c cs => simp [hc]

theorem obsStep_pure (o : Observation) (code : String)
    (extract : Observation → Except String String)
    (extractP : Observation → String)
    (set : IObservation → String → IObservation) (acc : IObservation)
    (hwf : obsWF o = true) (hex : extract o = .ok (extractP o)) :
    obsStep o code extract set acc = .ok (obsStepPure o code extractP set acc) := by
  unfold obsStep obsStepPure findCodeInObservation primaryCode
  cases hc : o.code.coding with
  | none => simp
  | some l =>
    cases l with
    | nil =>
      exfalso
      simp [obsWF, hc] at hwf
    | cons c cs =>
      by_cases hcode : c.code = some code
      · simp [hcode, hex]
      · simp [hcode]

theorem applyObservation_pure (acc : IObservation) (o : Observation)
    (hwf : obsWF o = true) :
    applyObservation acc o = .ok (applyObservationPure acc o) := by
  unfold applyObservation applyObservationPure
  rw [obsStep_pure _ _ _ extractCodeablePure _ _ hwf (extractCodeable_ok o hwf),
    except_bind_ok,
    obsStep_pure _ _ _ extractQuantityPure _ _ hwf rfl, except_bind_ok,
    obsStep_pure _ _ _ extractWeightPure _ _ hwf rfl, except_bind_ok,
    obsStep_pure _ _ _ extractStringPure _ _ hwf rfl, except_bind_ok,
    obsStep_pure _ _ _ extractCodeablePure _ _ hwf (extractCodeable_ok o hwf),
    except_bind_ok,
    obsStep_pure _ _ _ extractStringPure _ _ hwf rfl, except_bind_ok,
    obsStep_pure _ _ _ extractCodeablePure _ _ hwf (extractCodeable_ok o hwf),
    except_bind_ok,
    obsStep_pure _ _ _ extractCodeablePure _ _ hwf (extractCodeable_ok o hwf),
    except_bind_ok,
    obsStep_pure _ _ _ extractStringPure _ _ hwf rfl, except_bind_ok,
    obsStep_pure _ _ _ extractStringPure _ _ hwf rfl, except_bind_ok,
    obsStep_pure _ _ _ extractStringPure _ _ hwf rfl]

theorem extractObservations_pure (l : List Observation)
    (hwf : ∀ o ∈ l, obsWF o = true) (acc : IObservation) :
    extractObservations l acc = .ok (extractObservationsPure l acc) := by
  induction l generalizing acc with
  | nil => rfl
  | cons o t ih =>
    simp only [extractObservations, extractObservationsPure]
    rw [applyObservation_pure acc o (hwf o (List.mem_cons_self o t))]
    exact ih (fun o2 h2 => hwf o2 (List.mem_cons_of_mem o h2))
      (applyObservationPure acc o)

theorem foldPure_lastMatch (g : Observation → Bool)
    (ex : Observation → String) (f : IObservation → String)
    (hstep : ∀ acc o, f (applyObservationPure acc o) =
      if g o then ex o else f acc) :
    ∀ (l : List Observation) (acc : IObservation),
      f (extractObservationsPure l acc) =
        match lastMatch g l with
        | some o => ex o
        | none => f acc := by
  intro l
  induction l with
  | nil => intro acc; rfl
  | cons o t ih =>
    intro acc
    show f (extractObservationsPure t (applyObservationPure acc o)) = _
    rw [ih (applyObservationPure acc o)]
    cases hm : lastMatch g t with
    | some o2 => simp [lastMatch, hm]
    | none => cases hg : g o <;> simp [lastMatch, hm, hg, hstep acc o]

theorem obsStepPure_proj (f : IObservation → String) (o : Observation)
    (c : String) (ex : Observation → String)
    (set : IObservation → String → IObservation) (acc : IObservation)
    (hset : ∀ a v, f (set a v) = f a) :
    f (obsStepPure o c ex set acc) = f acc := by
  unfold obsStepPure
  split
  · exact hset acc (ex o)
  · rfl

theorem obsStepPure_proj_self (f : IObservation → String) (o : Observation)
    (c : String) (ex : Observation → String)
    (set : IObservation → String → IObservation) (acc : IObservation)
    (hset : ∀ a v, f (set a v) = v) :
    f (obsStepPure o c ex set acc) =
      if primaryCode o = some c then ex o else f acc := by
  unfold obsStepPure
  split
  · simp [hset]
  · simp

theorem applyPure_causeOfDeathMethod (acc : IObservation) (o : Observation) :
    (applyObservationPure acc o).causeOfDeathMethod =
      if matchesCode "cause-of-death-method" o then extractCodeablePure o
      else acc.causeOfDeathMethod := by
  simp only [applyObservationPure]
  rw [obsStepPure_proj IObservation.causeOfDeathMethod _ _ _ obsSet_presentAtBirthReg _ (fun a v => rfl)]
  rw [obsStepPure_proj IObservation.causeOfDeathMethod _ _ _ obsSet_numFemaleDependentsOnDeceased _ (fun a v => rfl)]
  rw [obsStepPure_proj IObservation.causeOfDeathMethod _ _ _ obsSet_numMaleDependentsOnDeceased _ (fun a v => rfl)]
  rw [obsStepPure_proj IObservation.causeOfDeathMethod _ _ _ obsSet_causeOfDeath _ (fun a v => rfl)]
  rw [obsStepPure_proj IObservation.causeOfDeathMethod _ _ _ obsSet_causeOfDeathEstablished _ (fun a v => rfl)]
  rw [obsStepPure_proj IObservation.causeOfDeathMethod _ _ _ obsSet_verbalAutopsyDescription _ (fun a v => rfl)]
  rw [obsStepPure_proj IObservation.causeOfDeathMethod _ _ _ obsSet_uncertifiedMannerOfDeath _ (fun a v => rfl)]
  rw [obsStepPure_proj IObservation.causeOfDeathMethod _ _ _ obsSet_birthAttendantTitle _ (fun a v => rfl)]
  rw [obsStepPure_proj IObservation.causeOfDeathMethod _ _ _ obsSet_bodyWeightMeasured _ (fun a v => rfl)]
  rw [obsStepPure_proj IObservation.causeOfDeathMethod _ _ _ obsSet_birthPluralityOfPregnancy _ (fun a v => rfl)]
  rw [obsStepPure_proj_self IObservation.causeOfDeathMethod _ _ _ obsSet_causeOfDeathMethod _ (fun a v => rfl)]
  simp [matchesCode]

theorem applyPure_birthPluralityOfPregnancy (acc : IObservation) (o : Observation) :
    (applyObservationPure acc o).birthPluralityOfPregnancy =
      if matchesCode "57722-1" o then extractQuantityPure o
      else acc.birthPluralityOfPregnancy := by
  simp only [applyObservationPure]
  rw [obsStepPure_proj IObservation.birthPluralityOfPregnancy _ _ _ obsSet_presentAtBirthReg _ (fun a v => rfl)]
  rw [obsStepPure_proj IObservation.birthPluralityOfPregnancy _ _ _ obsSet_numFemaleDependentsOnDeceased _ (fun a v => rfl)]
  rw [obsStepPure_proj IObservation.birthPluralityOfPregnancy _ _ _ obsSet_numMaleDependentsOnDeceased _ (fun a v => rfl)]
  rw [obsStepPure_proj IObservation.birthPluralityOfPregnancy _ _ _ obsSet_causeOfDeath _ (fun a v => rfl)]
  rw [obsStepPure_proj IObservation.birthPluralityOfPregnancy _ _ _ obsSet_causeOfDeathEstablished _ (fun a v => rfl)]
  rw [obsStepPure_proj IObservation.birthPluralityOfPregnancy _ _ _ obsSet_verbalAutopsyDescription _ (fun a v => rfl)]
  rw [obsStepPure_proj IObservation.birthPluralityOfPregnancy _ _ _ obsSet_uncertifiedMannerOfDeath _ (fun a v => rfl)]
  rw [obsStepPure_proj IObservation.birthPluralityOfPregnancy _ _ _ obsSet_birthAttendantTitle _ (fun a v => rfl)]
  rw [obsStepPure_proj IObservation.birthPluralityOfPregnancy _ _ _ obsSet_bodyWeightMeasured _ (fun a v => rfl)]
  rw [obsStepPure_proj_self IObservation.birthPluralityOfPregnancy _ _ _ obsSet_birthPluralityOfPregnancy _ (fun a v => rfl)]
  rw [obsStepPure_proj IObservation.birthPluralityOfPregnancy _ _ _ obsSet_causeOfDeathMethod _ (fun a v => rfl)]
  simp [matchesCode]

theorem applyPure_bodyWeightMeasured (acc : IObservation) (o : Observation) :
    (applyObservationPure acc o).bodyWeightMeasured =
      if matchesCode "3141-9" o then extractWeightPure o
      else acc.bodyWeightMeasured := by
  simp only [applyObservationPure]
  rw [obsStepPure_proj IObservation.bodyWeightMeasured _ _ _ obsSet_presentAtBirthReg _ (fun a v => rfl)]
  rw [obsStepPure_proj IObservation.bodyWeightMeasured _ _ _ obsSet_numFemaleDependentsOnDeceased _ (fun a v => rfl)]
  rw [obsStepPure_proj IObservation.bodyWeightMeasured _ _ _ obsSet_numMaleDependentsOnDeceased _ (fun a v => rfl)]
  rw [obsStepPure_proj IObservation.bodyWeightMeasured _ _ _ obsSet_causeOfDeath _ (fun a v => rfl)]
  rw [obsStepPure_proj IObservation.bodyWeightMeasured _ _ _ obsSet_causeOfDeathEstablished _ (fun a v => rfl)]
  rw [obsStepPure_proj IObservation.bodyWeightMeasured _ _ _ obsSet_verbalAutopsyDescription _ (fun a v => rfl)]
  rw [obsStepPure_proj IObservation.bodyWeightMeasured _ _ _ obsSet_uncertifiedMannerOfDeath _ (fun a v => rfl)]
  rw [obsStepPure_proj IObservation.bodyWeightMeasured _ _ _ obsSet_birthAttendantTitle _ (fun a v => rfl)]
  rw [obsStepPure_proj_self IObservation.bodyWeightMeasured _ _ _ obsSet_bodyWeightMeasured _ (fun a v => rfl)]
  rw [obsStepPure_proj IObservation.bodyWeightMeasured _ _ _ obsSet_birthPluralityOfPregnancy _ (fun a v => rfl)]
  rw [obsStepPure_proj IObservation.bodyWeightMeasured _ _ _ obsSet_causeOfDeathMethod _ (fun a v => rfl)]
  simp [matchesCode]

theorem applyPure_birthAttendantTitle (acc : IObservation) (o : Observation) :
    (applyObservationPure acc o).birthAttendantTitle =
      if matchesCode "73764-3" o then extractStringPure o
      else acc.birthAttendantTitle := by
  simp only [applyObservationPure]
  rw [obsStepPure_proj IObservation.birthAttendantTitle _ _ _ obsSet_presentAtBirthReg _ (fun a v => rfl)]
  rw [obsStepPure_proj IObservation.birthAttendantTitle _ _ _ obsSet_numFemaleDependentsOnDeceased _ (fun a v => rfl)]
  rw [obsStepPure_proj IObservation.birthAttendantTitle _ _ _ obsSet_numMaleDependentsOnDeceased _ (fun a v => rfl)]
  rw [obsStepPure_proj IObservation.birthAttendantTitle _ _ _ obsSet_causeOfDeath _ (fun a v => rfl)]
  rw [obsStepPure_proj IObservation.birthAttendantTitle _ _ _ obsSet_causeOfDeathEstablished _ (fun a v => rfl)]
  rw [obsStepPure_proj IObservation.birthAttendantTitle _ _ _ obsSet_verbalAutopsyDescription _ (fun a v => rfl)]
  rw [obsStepPure_proj IObservation.birthAttendantTitle _ _ _ obsSet_uncertifiedMannerOfDeath _ (fun a v => rfl)]
  rw [obsStepPure_proj_self IObservation.birthAttendantTitle _ _ _ obsSet_birthAttendantTitle _ (fun a v => rfl)]
  rw [obsStepPure_proj IObservation.birthAttendantTitle _ _ _ obsSet_bodyWeightMeasured _ (fun a v => rfl)]
  rw [obsStepPure_proj IObservation.birthAttendantTitle _ _ _ obsSet_birthPluralityOfPregnancy _ (fun a v => rfl)]
  rw [obsStepPure_proj IObservation.birthAttendantTitle _ _ _ obsSet_causeOfDeathMethod _ (fun a v => rfl)]
  simp [matchesCode]

theorem applyPure_uncertifiedMannerOfDeath (acc : IObservation) (o : Observation) :
    (applyObservationPure acc o).uncertifiedMannerOfDeath =
      if matchesCode "uncertified-manner-of-death" o then extractCodeablePure o
      else acc.uncertifiedMannerOfDeath := by
  simp only [applyObservationPure]
  rw [obsStepPure_proj IObservation.uncertifiedMannerOfDeath _ _ _ obsSet_presentAtBirthReg _ (fun a v => rfl)]
  rw [obsStepPure_proj IObservation.uncertifiedMannerOfDeath _ _ _ obsSet_numFemaleDependentsOnDeceased _ (fun a v => rfl)]
  rw [obsStepPure_proj IObservation.uncertifiedMannerOfDeath _ _ _ obsSet_numMaleDependentsOnDeceased _ (fun a v => rfl)]
  rw [obsStepPure_proj IObservation.uncertifiedMannerOfDeath _ _ _ obsSet_causeOfDeath _ (fun a v => rfl)]
  rw [obsStepPure_proj IObservation.uncertifiedMannerOfDeath _ _ _ obsSet_causeOfDeathEstablished _ (fun a v => rfl)]
  rw [obsStepPure_proj IObservation.uncertifiedMannerOfDeath _ _ _ obsSet_verbalAutopsyDescription _ (fun a v => rfl)]
  rw [obsStepPure_proj_self IObservation.uncertifiedMannerOfDeath _ _ _ obsSet_uncertifiedMannerOfDeath _ (fun a v => rfl)]
  rw [obsStepPure_proj IObservation.uncertifiedMannerOfDeath _ _ _ obsSet_birthAttendantTitle _ (fun a v => rfl)]
  rw [obsStepPure_proj IObservation.uncertifiedMannerOfDeath _ _ _ obsSet_bodyWeightMeasured _ (fun a v => rfl)]
  rw [obsStepPure_proj IObservation.uncertifiedMannerOfDeath _ _ _ obsSet_birthPluralityOfPregnancy _ (fun a v => rfl)]
  rw [obsStepPure_proj IObservation.uncertifiedMannerOfDeath _ _ _ obsSet_causeOfDeathMethod _ (fun a v => rfl)]
  simp [matchesCode]

theorem applyPure_verbalAutopsyDescription (acc : IObservation) (o : Observation) :
    (applyObservationPure acc o).verbalAutopsyDescription =
      if matchesCode "lay-reported-or-verbal-autopsy-description" o then extractStringPure o
      else acc.verbalAutopsyDescription := by
  simp only [applyObservationPure]
  rw [obsStepPure_proj IObservation.verbalAutopsyDescription _ _ _ obsSet_presentAtBirthReg _ (fun a v => rfl)]
  rw [obsStepPure_proj IObservation.verbalAutopsyDescription _ _ _ obsSet_numFemaleDependentsOnDeceased _ (fun a v => rfl)]
  rw [obsStepPure_proj IObservation.verbalAutopsyDescription _ _ _ obsSet_numMaleDependentsOnDeceased _ (fun a v => rfl)]
  rw [obsStepPure_proj IObservation.verbalAutopsyDescription _ _ _ obsSet_causeOfDeath _ (fun a v => rfl)]
  rw [obsStepPure_proj IObservation.verbalAutopsyDescription _ _ _ obsSet_causeOfDeathEstablished _ (fun a v => rfl)]
  rw [obsStepPure_proj_self IObservation.verbalAutopsyDescription _ _ _ obsSet_verbalAutopsyDescription _ (fun a v => rfl)]
  rw [obsStepPure_proj IObservation.verbalAutopsyDescription _ _ _ obsSet_uncertifiedMannerOfDeath _ (fun a v => rfl)]
  rw [obsStepPure_proj IObservation.verbalAutopsyDescription _ _ _ obsSet_birthAttendantTitle _ (fun a v => rfl)]
  rw [obsStepPure_proj IObservation.verbalAutopsyDescription _ _ _ obsSet_bodyWeightMeasured _ (fun a v => rfl)]
  rw [obsStepPure_proj IObservation.verbalAutopsyDescription _ _ _ obsSet_birthPluralityOfPregnancy _ (fun a v => rfl)]
  rw [obsStepPure_proj IObservation.verbalAutopsyDescription _ _ _ obsSet_causeOfDeathMethod _ (fun a v => rfl)]
  simp [matchesCode]

theorem applyPure_causeOfDeathEstablished (acc : IObservation) (o : Observation) :
    (applyObservationPure acc o).causeOfDeathEstablished =
      if matchesCode "cause-of-death-established" o then extractCodeablePure o
      else acc.causeOfDeathEstablished := by
  simp only [applyObservationPure]
  rw [obsStepPure_proj IObservation.causeOfDeathEstablished _ _ _ obsSet_presentAtBirthReg _ (fun a v => rfl)]
  rw [obsStepPure_proj IObservation.causeOfDeathEstablished _ _ _ obsSet_numFemaleDependentsOnDeceased _ (fun a v => rfl)]
  rw [obsStepPure_proj IObservation.causeOfDeathEstablished _ _ _ obsSet_numMaleDependentsOnDeceased _ (fun a v => rfl)]
  rw [obsStepPure_proj IObservation.causeOfDeathEstablished _ _ _ obsSet_causeOfDeath _ (fun a v => rfl)]
  rw [obsStepPure_proj_self IObservation.causeOfDeathEstablished _ _ _ obsSet_causeOfDeathEstablished _ (fun a v => rfl)]
  rw [obsStepPure_proj IObservation.causeOfDeathEstablished _ _ _ obsSet_verbalAutopsyDescription _ (fun a v => rfl)]
  rw [obsStepPure_proj IObservation.causeOfDeathEstablished _ _ _ obsSet_uncertifiedMannerOfDeath _ (fun a v => rfl)]
  rw [obsStepPure_proj IObservation.causeOfDeathEstablished _ _ _ obsSet_birthAttendantTitle _ (fun a v => rfl)]
  rw [obsStepPure_proj IObservation.causeOfDeathEstablished _ _ _ obsSet_bodyWeightMeasured _ (fun a v => rfl)]
  rw [obsStepPure_proj IObservation.causeOfDeathEstablished _ _ _ obsSet_birthPluralityOfPregnancy _ (fun a v => rfl)]
  rw [obsStepPure_proj IObservation.causeOfDeathEstablished _ _ _ obsSet_causeOfDeathMethod _ (fun a v => rfl)]
  simp [matchesCode]

theorem applyPure_causeOfDeath (acc : IObservation) (o : Observation) :
    (applyObservationPure acc o).causeOfDeath =
      if matchesCode "ICD10" o then extractCodeablePure o
      else acc.causeOfDeath := by
  simp only [applyObservationPure]
  rw [obsStepPure_proj IObservation.causeOfDeath _ _ _ obsSet_presentAtBirthReg _ (fun a v => rfl)]
  rw [obsStepPure_proj IObservation.causeOfDeath _ _ _ obsSet_numFemaleDependentsOnDeceased _ (fun a v => rfl)]
  rw [obsStepPure_proj IObservation.causeOfDeath _ _ _ obsSet_numMaleDependentsOnDeceased _ (fun a v => rfl)]
  rw [obsStepPure_proj_self IObservation.causeOfDeath _ _ _ obsSet_causeOfDeath _ (fun a v => rfl)]
  rw [obsStepPure_proj IObservation.causeOfDeath _ _ _ obsSet_causeOfDeathEstablished _ (fun a v => rfl)]
  rw [obsStepPure_proj IObservation.causeOfDeath _ _ _ obsSet_verbalAutopsyDescription _ (fun a v => rfl)]
  rw [obsStepPure_proj IObservation.causeOfDeath _ _ _ obsSet_uncertifiedMannerOfDeath _ (fun a v => rfl)]
  rw [obsStepPure_proj IObservation.causeOfDeath _ _ _ obsSet_birthAttendantTitle _ (fun a v => rfl)]
  rw [obsStepPure_proj IObservation.causeOfDeath _ _ _ obsSet_bodyWeightMeasured _ (fun a v => rfl)]
  rw [obsStepPure_proj IObservation.causeOfDeath _ _ _ obsSet_birthPluralityOfPregnancy _ (fun a v => rfl)]
  rw [obsStepPure_proj IObservation.causeOfDeath _ _ _ obsSet_causeOfDeathMethod _ (fun a v => rfl)]
  simp [matchesCode]

theorem applyPure_numMaleDependentsOnDeceased (acc : IObservation) (o : Observation) :
    (applyObservationPure acc o).numMaleDependentsOnDeceased =
      if matchesCode "num-male-dependents-on-deceased" o then extractStringPure o
      else acc.numMaleDependentsOnDeceased := by
  simp only [applyObservationPure]
  rw [obsStepPure_proj IObservation.numMaleDependentsOnDeceased _ _ _ obsSet_presentAtBirthReg _ (fun a v => rfl)]
  rw [obsStepPure_proj IObservation.numMaleDependentsOnDeceased _ _ _ obsSet_numFemaleDependentsOnDeceased _ (fun a v => rfl)]
  rw [obsStepPure_proj_self IObservation.numMaleDependentsOnDeceased _ _ _ obsSet_numMaleDependentsOnDeceased _ (fun a v => rfl)]
  rw [obsStepPure_proj IObservation.numMaleDependentsOnDeceased _ _ _ obsSet_causeOfDeath _ (fun a v => rfl)]
  rw [obsStepPure_proj IObservation.numMaleDependentsOnDeceased _ _ _ obsSet_causeOfDeathEstablished _ (fun a v => rfl)]
  rw [obsStepPure_proj IObservation.numMaleDependentsOnDeceased _ _ _ obsSet_verbalAutopsyDescription _ (fun a v => rfl)]
  rw [obsStepPure_proj IObservation.numMaleDependentsOnDeceased _ _ _ obsSet_uncertifiedMannerOfDeath _ (fun a v => rfl)]
  rw [obsStepPure_proj IObservation.numMaleDependentsOnDeceased _ _ _ obsSet_birthAttendantTitle _ (fun a v => rfl)]
  rw [obsStepPure_proj IObservation.numMaleDependentsOnDeceased _ _ _ obsSet_bodyWeightMeasured _ (fun a v => rfl)]
  rw [obsStepPure_proj IObservation.numMaleDependentsOnDeceased _ _ _ obsSet_birthPluralityOfPregnancy _ (fun a v => rfl)]
  rw [obsStepPure_proj IObservation.numMaleDependentsOnDeceased _ _ _ obsSet_causeOfDeathMethod _ (fun a v => rfl)]
  simp [matchesCode]

theorem applyPure_numFemaleDependentsOnDeceased (acc : IObservation) (o : Observation) :
    (applyObservationPure acc o).numFemaleDependentsOnDeceased =
      if matchesCode "num-female-dependents-on-deceased" o then extractStringPure o
      else acc.numFemaleDependentsOnDeceased := by
  simp only [applyObservationPure]
  rw [obsStepPure_proj IObservation.numFemaleDependentsOnDeceased _ _ _ obsSet_presentAtBirthReg _ (fun a v => rfl)]
  rw [obsStepPure_proj_self IObservation.numFemaleDependentsOnDeceased _ _ _ obsSet_numFemaleDependentsOnDeceased _ (fun a v => rfl)]
  rw [obsStepPure_proj IObservation.numFemaleDependentsOnDeceased _ _ _ obsSet_numMaleDependentsOnDeceased _ (fun a v => rfl)]
  rw [obsStepPure_proj IObservation.numFemaleDependentsOnDeceased _ _ _ obsSet_causeOfDeath _ (fun a v => rfl)]
  rw [obsStepPure_proj IObservation.numFemaleDependentsOnDeceased _ _ _ obsSet_causeOfDeathEstablished _ (fun a v => rfl)]
  rw [obsStepPure_proj IObservation.numFemaleDependentsOnDeceased _ _ _ obsSet_verbalAutopsyDescription _ (fun a v => rfl)]
  rw [obsStepPure_proj IObservation.numFemaleDependentsOnDeceased _ _ _ obsSet_uncertifiedMannerOfDeath _ (fun a v => rfl)]
  rw [obsStepPure_proj IObservation.numFemaleDependentsOnDeceased _ _ _ obsSet_birthAttendantTitle _ (fun a v => rfl)]
  rw [obsStepPure_proj IObservation.numFemaleDependentsOnDeceased _ _ _ obsSet_bodyWeightMeasured _ (fun a v => rfl)]
  rw [obsStepPure_proj IObservation.numFemaleDependentsOnDeceased _ _ _ obsSet_birthPluralityOfPregnancy _ (fun a v => rfl)]
  rw [obsStepPure_proj IObservation.numFemaleDependentsOnDeceased _ _ _ obsSet_causeOfDeathMethod _ (fun a v => rfl)]
  simp [matchesCode]

theorem applyPure_presentAtBirthReg (acc : IObservation) (o : Observation) :
    (applyObservationPure acc o).presentAtBirthReg =
      if matchesCode "present-at-birth-reg" o then extractStringPure o
      else acc.presentAtBirthReg := by
  simp only [applyObservationPure]
  rw [obsStepPure_proj_self IObservation.presentAtBirthReg _ _ _ obsSet_presentAtBirthReg _ (fun a v => rfl)]
  rw [obsStepPure_proj IObservation.presentAtBirthReg _ _ _ obsSet_numFemaleDependentsOnDeceased _ (fun a v => rfl)]
  rw [obsStepPure_proj IObservation.presentAtBirthReg _ _ _ obsSet_numMaleDependentsOnDeceased _ (fun a v => rfl)]
  rw [obsStepPure_proj IObservation.presentAtBirthReg _ _ _ obsSet_causeOfDeath _ (fun a v => rfl)]
  rw [obsStepPure_proj IObservation.presentAtBirthReg _ _ _ obsSet_causeOfDeathEstablished _ (fun a v => rfl)]
  rw [obsStepPure_proj IObservation.presentAtBirthReg _ _ _ obsSet_verbalAutopsyDescription _ (fun a v => rfl)]
  rw [obsStepPure_proj IObservation.presentAtBirthReg _ _ _ obsSet_uncertifiedMannerOfDeath _ (fun a v => rfl)]
  rw [obsStepPure_proj IObservation.presentAtBirthReg _ _ _ obsSet_birthAttendantTitle _ (fun a v => rfl)]
  rw [obsStepPure_proj IObservation.presentAtBirthReg _ _ _ obsSet_bodyWeightMeasured _ (fun a v => rfl)]
  rw [obsStepPure_proj IObservation.presentAtBirthReg _ _ _ obsSet_birthPluralityOfPregnancy _ (fun a v => rfl)]
  rw [obsStepPure_proj IObservation.presentAtBirthReg _ _ _ obsSet_causeOfDeathMethod _ (fun a v => rfl)]
  simp [matchesCode]

/-- C2, counterexample: two observations share the birth-attendant code
`73764-3` with values "Midwife" then "Doctor"; the extractor yields "Doctor"
(the last match), not the first observation's "Midwife" as claimed. -/
theorem C2_counterexample :
    primaryCode cexObsFirst = some "73764-3" ∧
    cexObsFirst.valueString = some "Midwife" ∧
    primaryCode cexObsLast = some "73764-3" ∧
    extractObservations [cexObsFirst, cexObsLast] {} =
      .ok (extractObservationsPure [cexObsFirst, cexObsLast] {}) ∧
    (extractObservationsPure
      [cexObsFirst, cexObsLast] {}).birthAttendantTitle = "Doctor" ∧
    ("Doctor" : String) ≠ "Midwife" := by
  exact ⟨rfl, rfl, rfl, rfl, rfl, by decide⟩

/-- C2 (amended): for a well-formed observation list (no empty `coding`
arrays, which would throw), the extracted value of every configured code is
that of the LAST observation in the list whose primary (index-0) coding
equals the code — a later matching observation overwrites an earlier one —
and fields with no matching observation remain the empty string
(`lastMatchValue` is the empty string when no observation matches). -/
theorem C2_amended_last_match_wins (l : List Observation)
    (h : ∀ o ∈ l, obsWF o = true) :
    extractObservations l {} = .ok (extractObservationsPure l {}) ∧
    (extractObservationsPure l {}).causeOfDeathMethod =
      lastMatchValue "cause-of-death-method" extractCodeablePure l ∧
    (extractObservationsPure l {}).birthPluralityOfPregnancy =
      lastMatchValue "57722-1" extractQuantityPure l ∧
    (extractObservationsPure l {}).bodyWeightMeasured =
      lastMatchValue "3141-9" extractWeightPure l ∧
    (extractObservationsPure l {}).birthAttendantTitle =
      lastMatchValue "73764-3" extractStringPure l ∧
    (extractObservationsPure l {}).uncertifiedMannerOfDeath =
      lastMatchValue "uncertified-manner-of-death" extractCodeablePure l ∧
    (extractObservationsPure l {}).verbalAutopsyDescription =
      lastMatchValue "lay-reported-or-verbal-autopsy-description"
        extractStringPure l ∧
    (extractObservationsPure l {}).causeOfDeathEstablished =
      lastMatchValue "cause-of-death-established" extractCodeablePure l ∧
    (extractObservationsPure l {}).causeOfDeath =
      lastMatchValue "ICD10" extractCodeablePure l ∧
    (extractObservationsPure l {}).numMaleDependentsOnDeceased =
      lastMatchValue "num-male-dependents-on-deceased" extractStringPure l ∧
    (extractObservationsPure l {}).numFemaleDependentsOnDeceased =
      lastMatchValue "num-female-dependents-on-deceased" extractStringPure l ∧
    (extractObservationsPure l {}).presentAtBirthReg =
      lastMatchValue "present-at-birth-reg" extractStringPure l :=
  ⟨extractObservations_pure l h {},
   foldPure_lastMatch _ _ (fun r => r.causeOfDeathMethod)
     (fun acc o => applyPure_causeOfDeathMethod acc o) l {},
   foldPure_lastMatch _ _ (fun r => r.birthPluralityOfPregnancy)
     (fun acc o => applyPure_birthPluralityOfPregnancy acc o) l {},
   foldPure_lastMatch _ _ (fun r => r.bodyWeightMeasured)
     (fun acc o => applyPure_bodyWeightMeasured acc o) l {},
   foldPure_lastMatch _ _ (fun r => r.birthAttendantTitle)
     (fun acc o => applyPure_birthAttendantTitle acc o) l {},
   foldPure_lastMatch _ _ (fun r => r.uncertifiedMannerOfDeath)
     (fun acc o => applyPure_uncertifiedMannerOfDeath acc o) l {},
   foldPure_lastMatch _ _ (fun r => r.verbalAutopsyDescription)
     (fun acc o => applyPure_verbalAutopsyDescription acc o) l {},
   foldPure_lastMatch _ _ (fun r => r.causeOfDeathEstablished)
     (fun acc o => applyPure_causeOfDeathEstablished acc o) l {},
   foldPure_lastMatch _ _ (fun r => r.causeOfDeath)
     (fun acc o => applyPure_causeOfDeath acc o) l {},
   foldPure_lastMatch _ _ (fun r => r.numMaleDependentsOnDeceased)
     (fun acc o => applyPure_numMaleDependentsOnDeceased acc o) l {},
   foldPure_lastMatch _ _ (fun r => r.numFemaleDependentsOnDeceased)
     (fun acc o => applyPure_numFemaleDependentsOnDeceased acc o) l {},
   foldPure_lastMatch _ _ (fun r => r.presentAtBirthReg)
     (fun acc o => applyPure_presentAtBirthReg acc o) l {}⟩

/-- C2 witness: the amended theorem evaluated on the two-observation list. -/
theorem C2_witness :
    extractObservations [cexObsFirst, cexObsLast] {} =
      .ok (extractObservationsPure [cexObsFirst, cexObsLast] {}) ∧
    (extractObservationsPure
      [cexObsFirst, cexObsLast] {}).birthAttendantTitle =
      lastMatchValue "73764-3" extractStringPure [cexObsFirst, cexObsLast] := by
  have h := C2_amended_last_match_wins [cexObsFirst, cexObsLast] (by decide)
  exact ⟨h.1, h.2.2.2.2.1⟩

/-! ## C8: the business-status gate -/

/-- C8: when the Task found for the record carries a business status code
that is neither CERTIFIED nor REGISTERED, the record produces no output row
(the gate also yields no row when the lookup or the code extraction fails). -/
theorem C8_non_eligible_status_no_row (store : Store)
    (locations : List Location) (composition : Composition)
    (h : ∀ t c, lookupTask store composition = some t →
      taskBusinessStatus t = .ok (some c) →
      c ≠ "CERTIFIED" ∧ c ≠ "REGISTERED") :
    processComposition store locations composition = none := by
  cases ht : lookupTask store composition with
  | none => simp [processComposition, processCompositionE, ht]
  | some task =>
    cases hb : taskBusinessStatus task with
    | error e => simp [processComposition, processCompositionE, ht, hb]
    | ok bs =>
      have hcond : ¬(bs = some "CERTIFIED" ∨ bs = some "REGISTERED") := by
        rintro (rfl | rfl)
        · exact (h task "CERTIFIED" ht hb).1 rfl
        · exact (h task "REGISTERED" ht hb).2 rfl
      simp [processComposition, processCompositionE, ht, hb, hcond]

/-- C8 witness: a concrete IN_PROGRESS record writes no row. -/
theorem C8_witness :
    processComposition cexInProgressStore [] cexNoEncounterComp = none := by
  refine C8_non_eligible_status_no_row _ _ _ ?_
  intro t c ht hc
  have ht2 : (some cexInProgressTask : Option Task) = some t := ht
  obtain rfl : cexInProgressTask = t := Option.some.inj ht2
  have hc2 : (Except.ok (some "IN_PROGRESS") :
    Except String (Option String)) = .ok (some c) := hc
  have hc3 : (some "IN_PROGRESS" : Option String) = some c := by
    injection hc2
  obtain rfl : "IN_PROGRESS" = c := Option.some.inj hc3
  exact ⟨by decide, by decide⟩

/-! ## C7: location hierarchy resolution refines the spec description -/

theorem find?_id_eq_none_of_ne (locations : List Location) (x : Option String)
    (h : ∀ l ∈ locations, l.id ≠ x) :
    locations.find? (fun l => decide (l.id = x)) = none :=
  List.find?_eq_none.mpr (fun l hl => by simpa using h l hl)

/-- Locations are found the same way through an optional id when every
location has an id (so an absent id never matches a stray id-less record). -/
theorem find?_opt_id (locations : List Location) (x : Option String)
    (h2 : ∀ l ∈ locations, l.id.isSome = true) :
    locations.find? (fun l => decide (l.id = x)) = specFindById locations x := by
  cases x with
  | none =>
    exact find?_id_eq_none_of_ne locations none
      (fun l hl => by have := h2 l hl; cases hid : l.id <;> simp_all)
  | some i => rfl

/-- Looking a location up by `String(maybeId)` agrees with the spec-side
optional lookup when no location carries the literal id "undefined". -/
theorem find?_jsStr_id (locations : List Location) (x : Option String)
    (h3 : ∀ l ∈ locations, l.id ≠ some "undefined") :
    locations.find? (fun l => decide (l.id = some (jsStr x))) =
      specFindById locations x := by
  cases x with
  | none => exact find?_id_eq_none_of_ne locations (some jsUndef) h3
  | some i => rfl

theorem bind_partOfId (d : Option Location) :
    ((d.bind Location.partOf).bind Reference.reference).map
      (fun r => replaceFirst r "Location/") = d.bind specPartOfId := by
  cases d <;> rfl

/-- C7: for a well-formed leaf (no empty `type.coding` array) over a location
set where every location has an id and none has the literal id "undefined",
the source's hierarchy resolution returns exactly the spec description: for a
health-facility leaf, district = the Location whose id is the leaf's `partOf`
reference and state = the Location whose id is the district's `partOf`
(missing ancestor: empty name, no error); otherwise district/state are the
sibling Locations named by the leaf's own `address.district`/`address.state`,
ignoring `partOf`; city always comes from the leaf's own address. -/
theorem C7_hierarchy_matches_spec (leaf : Location) (locations : List Location)
    (h1 : locTypeWF leaf = true)
    (h2 : ∀ l ∈ locations, l.id.isSome = true)
    (h3 : ∀ l ∈ locations, l.id ≠ some "undefined") :
    resolveLocationHierarchy leaf locations =
      .ok { healthCenter :=
              if specIsHealthFacility leaf then some (leaf.name.getD "")
              else none
            district := (hierarchySpec leaf locations).district
            state := (hierarchySpec leaf locations).state
            city := (hierarchySpec leaf locations).city } := by
  have hadmin : ∀ x : Option String,
      locations.find? (fun l => decide (l.id = x)) = specFindById locations x :=
    fun x => find?_opt_id locations x h2
  have hjs : ∀ x : Option String,
      locations.find? (fun l => decide (l.id = some (jsStr x))) =
        specFindById locations x :=
    fun x => find?_jsStr_id locations x h3
  cases ht : leaf.type with
  | none =>
    simp [resolveLocationHierarchy, hierarchySpec, specIsHealthFacility, ht,
      hadmin]
  | some cc =>
    cases hcod : cc.coding with
    | none =>
      simp [resolveLocationHierarchy, hierarchySpec, specIsHealthFacility, ht,
        hcod, hadmin]
    | some cl =>
      cases cl with
      | nil => simp [locTypeWF, ht, hcod] at h1
      | cons c cs =>
        by_cases hHF : c.code = some "HEALTH_FACILITY"
        · simp [resolveLocationHierarchy, hierarchySpec, specIsHealthFacility,
            ht, hcod, hHF, hjs, bind_partOfId, specPartOfId, Option.bind_map,
            Option.bind_assoc]
        · simp [resolveLocationHierarchy, hierarchySpec, specIsHealthFacility,
            ht, hcod, hHF, hadmin]

/-- C7 witness: the concrete health-facility chain resolves to the
district/state names along `partOf` and the city from the leaf's address. -/
theorem C7_witness :
    resolveLocationHierarchy cexLeafHF cexLocations =
      .ok { healthCenter := some "Clinic A"
            district := "District D"
            state := "State S"
            city := "CityX" } := by
  have h := C7_hierarchy_matches_spec cexLeafHF cexLocations
    (by decide) (by decide) (by decide)
  exact h.trans rfl

/-! ## C1: a record with no Encounter section is skipped, not exported -/

theorem exFind_encounter_of_none (l : List Section)
    (h : ∀ s ∈ l, noEncounterRef s = true) :
    exFind (sectionRefStartsWith "Encounter/") l = .ok none ∨
      exFind (sectionRefStartsWith "Encounter/") l = .error "TypeError" := by
  induction l with
  | nil => exact Or.inl rfl
  | cons s t ih =>
    have hs := h s (List.mem_cons_self s t)
    have htail : ∀ s2 ∈ t, noEncounterRef s2 = true :=
      fun s2 h2 => h s2 (List.mem_cons_of_mem s h2)
    cases he : s.entry with
    | none =>
      have hred : exFind (sectionRefStartsWith "Encounter/") (s :: t) =
          exFind (sectionRefStartsWith "Encounter/") t := by
        simp [exFind, sectionRefStartsWith, he]
      rw [hred]
      exact ih htail
    | some es =>
      cases es with
      | nil =>
        right
        simp [exFind, sectionRefStartsWith, he]
      | cons e es2 =>
        cases hr : e.reference with
        | none =>
          have hred : exFind (sectionRefStartsWith "Encounter/") (s :: t) =
              exFind (sectionRefStartsWith "Encounter/") t := by
            simp [exFind, sectionRefStartsWith, he, hr]
          rw [hred]
          exact ih htail
        | some r =>
          have hns : jsStartsWith r "Encounter/" = false := by
            have hh := hs
            simp [noEncounterRef, he, hr] at hh
            simpa using hh
          have hred : exFind (sectionRefStartsWith "Encounter/") (s :: t) =
              exFind (sectionRefStartsWith "Encounter/") t := by
            simp [exFind, sectionRefStartsWith, he, hr, hns]
          rw [hred]
          exact ih htail

/-- When no section references an Encounter, `setLocationInComposition`
throws: either a section guard throws, or the Encounter fetch for the
defaulted id `''` comes back empty and `encounterDoc[0].location` throws. -/
theorem setLocation_error_of_no_encounter (store : Store)
    (locations : List Location) (sections : Option (List Section))
    (task : Task)
    (hs : ∀ s ∈ sections.getD [], noEncounterRef s = true)
    (henc : ∀ enc ∈ store.encounters, enc.id ≠ some "") :
    setLocationInComposition store locations sections task =
      .error "TypeError" := by
  rcases exFind_encounter_of_none (sections.getD []) hs with hf | hf
  · have hfilter : getCollectionDocuments store.encounters Encounter.id
        [""] = [] := by
      unfold getCollectionDocuments
      rw [if_neg (by decide)]
      refine List.filter_eq_nil_iff.mpr ?_
      intro enc hmem
      simp [henc enc hmem]
    simp [setLocationInComposition, hf, encounterIdOf, hfilter]
  · simp [setLocationInComposition, hf]

/-- C1 (amended): a record whose sections contain no Encounter reference
(over a store with no Encounter document under the empty id) produces NO
output row at all: resolving the missing Encounter document throws and the
per-record catch skips the record, so the empty-string location columns are
never written. -/
theorem C1_amended_no_row (store : Store) (locations : List Location)
    (composition : Composition)
    (h1 : ∀ s ∈ composition.section_.getD [], noEncounterRef s = true)
    (h2 : ∀ enc ∈ store.encounters, enc.id ≠ some "") :
    processComposition store locations composition = none := by
  cases ht : lookupTask store composition with
  | none => simp [processComposition, processCompositionE, ht]
  | some task =>
    cases hb : taskBusinessStatus task with
    | error e => simp [processComposition, processCompositionE, ht, hb]
    | ok bs =>
      by_cases hcond : bs = some "CERTIFIED" ∨ bs = some "REGISTERED"
      · have hsub : ∀ s ∈ (composition.section_.map
            (List.filter goodSectionTitle)).getD [], noEncounterRef s = true := by
          intro s hsm
          cases hsec : composition.section_ with
          | none => simp [hsec] at hsm
          | some orig =>
            rw [hsec] at hsm
            simp only [Option.map_some', Option.getD_some] at hsm
            refine h1 s ?_
            rw [hsec]
            exact List.mem_of_mem_filter hsm
        have hloc := setLocation_error_of_no_encounter store locations
          (composition.section_.map (List.filter goodSectionTitle)) task
          hsub h2
        cases hroles : setPatientsDetailsInComposition store locations
            (composition.section_.map (List.filter goodSectionTitle)) with
        | error e =>
          simp [processComposition, processCompositionE, ht, hb, hcond, hroles]
        | ok roles =>
          simp [processComposition, processCompositionE, ht, hb, hcond,
            hroles, hloc]
      · simp [processComposition, processCompositionE, ht, hb, hcond]

/-- C1, counterexample: a concrete registered birth record with a child
section but no Encounter section produces no output row (the claim says an
output row with empty location columns is still produced). -/
theorem C1_counterexample :
    (cexNoEncounterComp.section_.getD []).all noEncounterRef = true ∧
    processComposition cexNoEncounterStore [] cexNoEncounterComp = none :=
  ⟨rfl, rfl⟩

/-- C1 witness: the amended theorem applied to the concrete record. -/
theorem C1_witness :
    processComposition cexNoEncounterStore [] cexNoEncounterComp = none :=
  C1_amended_no_row cexNoEncounterStore [] cexNoEncounterComp
    (by decide) (by decide)

/-! ## C4: the month-window scheduler — calendar lemmas -/

theorem daysInMonth_pos (y m : Nat) : 1 ≤ daysInMonth y m := by
  unfold daysInMonth
  split
  · split <;> omega
  · split <;> omega

theorem daysInMonth_le_31 (y m : Nat) : daysInMonth y m ≤ 31 := by
  unfold daysInMonth
  split
  · split <;> omega
  · split <;> omega

theorem valid_day_le_31 (d : SDate) (h : d.valid) : d.day ≤ 31 :=
  Nat.le_trans h.2.2.2 (daysInMonth_le_31 _ _)

theorem sle_refl (a : SDate) : a ≤ a := Nat.le_refl _

theorem sle_trans {a b c : SDate} : a ≤ b → b ≤ c → a ≤ c := Nat.le_trans

theorem sle_of_slt {a b : SDate} : a < b → a ≤ b := Nat.le_of_lt

theorem slt_of_slt_of_sle {a b c : SDate} : a < b → b ≤ c → a < c :=
  Nat.lt_of_lt_of_le

theorem slt_of_mi_lt {a b : SDate} (h : a.monthIndex < b.monthIndex)
    (ha : a.day ≤ 31) (hb : 1 ≤ b.day) : a < b := by
  show a.key < b.key
  unfold SDate.key
  omega

theorem sle_same_mi {a b : SDate} (h : a.monthIndex = b.monthIndex)
    (hd : a.day ≤ b.day) : a ≤ b := by
  show a.key ≤ b.key
  unfold SDate.key
  omega

theorem mi_le_of_sle {a b : SDate} (h : a ≤ b) (ha : 1 ≤ a.day)
    (hb : b.day ≤ 31) : a.monthIndex ≤ b.monthIndex := by
  have hk : a.key ≤ b.key := h
  unfold SDate.key at hk
  omega

theorem day_le_of_sle_same_mi {a b : SDate} (h : a ≤ b)
    (hm : a.monthIndex = b.monthIndex) : a.day ≤ b.day := by
  have hk : a.key ≤ b.key := h
  unfold SDate.key at hk
  omega

theorem sle_of_mi_le_day1 {a b : SDate} (h : a.monthIndex ≤ b.monthIndex)
    (ha : a.day = 1) (hb : 1 ≤ b.day) : a ≤ b := by
  show a.key ≤ b.key
  unfold SDate.key
  omega

theorem monthIndex_inj {a b : SDate} (ha : a.valid) (hb : b.valid)
    (h : a.monthIndex = b.monthIndex) : a.year = b.year ∧ a.month = b.month := by
  obtain ⟨ha1, ha2, -, -⟩ := ha
  obtain ⟨hb1, hb2, -, -⟩ := hb
  unfold SDate.monthIndex at h
  omega

theorem addDays_within (y m : Nat) :
    ∀ (k day : Nat), 1 ≤ day → day + k = daysInMonth y m →
      addDays ⟨y, m, day⟩ k = ⟨y, m, daysInMonth y m⟩ := by
  intro k
  induction k with
  | zero =>
    intro day h1 h2
    have hd : day = daysInMonth y m := by omega
    subst hd
    rfl
  | succ j ih =>
    intro day h1 h2
    have hlt : day < daysInMonth y m := by omega
    show addDays (addOneDay ⟨y, m, day⟩) j = _
    have hone : addOneDay ⟨y, m, day⟩ = ⟨y, m, day + 1⟩ := by
      unfold addOneDay
      rw [if_pos hlt]
    rw [hone]
    exact ih (day + 1) (by omega) (by omega)

theorem addDays_to_endOfMonth (d : SDate) (h : d.valid) :
    addDays d (daysInMonth d.year d.month - d.day) = endOfMonth d := by
  have h3 := h.2.2.1
  have h4 := h.2.2.2
  calc addDays d (daysInMonth d.year d.month - d.day)
      = addDays ⟨d.year, d.month, d.day⟩
          (daysInMonth d.year d.month - d.day) := rfl
    _ = ⟨d.year, d.month, daysInMonth d.year d.month⟩ :=
        addDays_within d.year d.month _ d.day h3 (by omega)
    _ = endOfMonth d := rfl

theorem addOneDay_endOfMonth (d : SDate) :
    addOneDay (endOfMonth d) = nextMonthStart d := by
  unfold addOneDay endOfMonth nextMonthStart
  simp [Nat.lt_irrefl]

theorem addDays_one (d : SDate) : addDays d 1 = addOneDay d := rfl

theorem nextMonthStart_day (d : SDate) : (nextMonthStart d).day = 1 := by
  unfold nextMonthStart
  split <;> rfl

theorem nextMonthStart_valid (d : SDate) (h : d.valid) :
    (nextMonthStart d).valid := by
  obtain ⟨h1, h2, -, -⟩ := h
  unfold nextMonthStart
  by_cases hm : d.month < 12
  · rw [if_pos hm]
    refine ⟨?_, ?_, ?_, ?_⟩
    · show 1 ≤ d.month + 1
      omega
    · show d.month + 1 ≤ 12
      omega
    · exact Nat.le_refl 1
    · show 1 ≤ daysInMonth d.year (d.month + 1)
      exact daysInMonth_pos _ _
  · rw [if_neg hm]
    refine ⟨?_, ?_, ?_, ?_⟩
    · show 1 ≤ 1
      omega
    · show 1 ≤ 12
      omega
    · exact Nat.le_refl 1
    · show 1 ≤ daysInMonth (d.year + 1) 1
      exact daysInMonth_pos _ _

theorem nextMonthStart_monthIndex (d : SDate) (h : d.valid) :
    (nextMonthStart d).monthIndex = d.monthIndex + 1 := by
  obtain ⟨h1, h2, -, -⟩ := h
  unfold nextMonthStart
  by_cases hm : d.month < 12
  · rw [if_pos hm]
    show d.year * 12 + (d.month + 1 - 1) = d.year * 12 + (d.month - 1) + 1
    omega
  · rw [if_neg hm]
    show (d.year + 1) * 12 + (1 - 1) = d.year * 12 + (d.month - 1) + 1
    omega

theorem endOfMonth_valid (d : SDate) (h : d.valid) : (endOfMonth d).valid :=
  ⟨h.1, h.2.1, daysInMonth_pos _ _, Nat.le_refl _⟩

theorem endOfMonth_monthIndex (d : SDate) :
    (endOfMonth d).monthIndex = d.monthIndex := rfl

theorem slt_of_sle_of_slt {a b c : SDate} : a ≤ b → b < c → a < c :=
  Nat.lt_of_le_of_lt

/-- The main loop invariant of `startScript`: starting from a valid date
`cur` lying `n` calendar months before the (valid) end date — and on or
before it within the month when `n = 0` — the remaining `n + 1` iterations
produce `n + 1` ordered windows that begin at `cur`, are contiguous
(each next window starts the day after the previous end), pairwise disjoint,
end at the last day of their starting month except the final window which
ends at the end date, and cover exactly the valid dates of `[cur, endD]`. -/
theorem windowsGo_spec (endD : SDate) (he : endD.valid) :
    ∀ (n : Nat) (cur : SDate), cur.valid →
      cur.monthIndex + n = endD.monthIndex →
      (n = 0 → cur.day ≤ endD.day) →
      (windowsGo endD cur (n + 1)).length = n + 1 ∧
      (∀ w ∈ windowsGo endD cur (n + 1),
        w.1.valid ∧ w.2.valid ∧ w.1 ≤ w.2 ∧ cur ≤ w.1 ∧ w.2 ≤ endD) ∧
      List.Chain' (fun a b => b.1 = addDays a.2 1)
        (windowsGo endD cur (n + 1)) ∧
      List.Pairwise (fun a b => a.2 < b.1) (windowsGo endD cur (n + 1)) ∧
      (∀ w ∈ (windowsGo endD cur (n + 1)).dropLast, w.2 = endOfMonth w.1) ∧
      (∃ p, (windowsGo endD cur (n + 1)).getLast? = some p ∧ p.2 = endD) ∧
      (∃ p, (windowsGo endD cur (n + 1)).head? = some p ∧ p.1 = cur) ∧
      (∀ d : SDate, d.valid →
        ((cur ≤ d ∧ d ≤ endD) ↔
          ∃ w ∈ windowsGo endD cur (n + 1), w.1 ≤ d ∧ d ≤ w.2)) := by
  intro n
  induction n with
  | zero =>
    intro cur hv hmi hday
    have hW : windowsGo endD cur 1 = [(cur, endD)] := rfl
    rw [hW]
    have hce : cur ≤ endD := sle_same_mi (by omega) (hday rfl)
    refine ⟨rfl, ?_, ?_, ?_, ?_, ?_, ?_, ?_⟩
    · intro w hw
      simp only [List.mem_singleton] at hw
      subst hw
      exact ⟨hv, he, hce, sle_refl cur, sle_refl endD⟩
    · simp
    · simp
    · simp
    · exact ⟨(cur, endD), rfl, rfl⟩
    · exact ⟨(cur, endD), rfl, rfl⟩
    · intro d hd
      constructor
      · rintro ⟨h1, h2⟩
        exact ⟨(cur, endD), List.mem_singleton.mpr rfl, h1, h2⟩
      · rintro ⟨w, hw, h1, h2⟩
        simp only [List.mem_singleton] at hw
        subst hw
        exact ⟨h1, h2⟩
  | succ m ih =>
    intro cur hv hmi hday
    have hlastm : addDays cur (getDaysInMonth cur - getDate cur) =
        endOfMonth cur := addDays_to_endOfMonth cur hv
    have hnext : addDays (endOfMonth cur) 1 = nextMonthStart cur := by
      rw [addDays_one]
      exact addOneDay_endOfMonth cur
    have hexp : windowsGo endD cur (m + 1 + 1) =
        (cur, endOfMonth cur) ::
          windowsGo endD (nextMonthStart cur) (m + 1) := by
      show (cur, if m + 1 = 0 then endD
          else addDays cur (getDaysInMonth cur - getDate cur)) ::
        windowsGo endD (addDays (if m + 1 = 0 then endD
          else addDays cur (getDaysInMonth cur - getDate cur)) 1) (m + 1) = _
      rw [if_neg (Nat.succ_ne_zero m), hlastm, hnext]
    have hv2 : (nextMonthStart cur).valid := nextMonthStart_valid cur hv
    have hmi_next : (nextMonthStart cur).monthIndex = cur.monthIndex + 1 :=
      nextMonthStart_monthIndex cur hv
    have hmi2 : (nextMonthStart cur).monthIndex + m = endD.monthIndex := by
      rw [hmi_next]
      omega
    have hday2 : m = 0 → (nextMonthStart cur).day ≤ endD.day := by
      intro _
      rw [nextMonthStart_day]
      exact he.2.2.1
    obtain ⟨ihlen, ihbounds, ihchain, ihpair, ihdrop, ihlast, ihhead, ihunion⟩ :=
      ih (nextMonthStart cur) hv2 hmi2 hday2
    have heomv : (endOfMonth cur).valid := endOfMonth_valid cur hv
    have hcur_eom : cur ≤ endOfMonth cur := sle_same_mi rfl hv.2.2.2
    have heom_lt_next : endOfMonth cur < nextMonthStart cur := by
      apply slt_of_mi_lt
      · show cur.monthIndex < (nextMonthStart cur).monthIndex
        omega
      · exact valid_day_le_31 _ heomv
      · rw [nextMonthStart_day]
    have hcur_le_next : cur ≤ nextMonthStart cur :=
      sle_of_slt (slt_of_sle_of_slt hcur_eom heom_lt_next)
    have heom_le_end : endOfMonth cur ≤ endD := by
      apply sle_of_slt
      apply slt_of_mi_lt
      · show cur.monthIndex < endD.monthIndex
        omega
      · exact valid_day_le_31 _ heomv
      · exact he.2.2.1
    rw [hexp]
    refine ⟨?_, ?_, ?_, ?_, ?_, ?_, ?_, ?_⟩
    · simp [ihlen]
    · intro w hw
      rcases List.mem_cons.mp hw with hw | hw
      · subst hw
        exact ⟨hv, heomv, hcur_eom, sle_refl cur, heom_le_end⟩
      · obtain ⟨b1, b2, b3, b4, b5⟩ := ihbounds w hw
        exact ⟨b1, b2, b3, sle_trans hcur_le_next b4, b5⟩
    · refine List.chain'_cons'.mpr ⟨?_, ihchain⟩
      intro b hb
      obtain ⟨p, hp, hp1⟩ := ihhead
      rw [hp] at hb
      have hbp : p = b := by
        simpa using hb
      subst hbp
      show p.1 = addDays (endOfMonth cur) 1
      rw [hnext, hp1]
    · refine List.pairwise_cons.mpr ⟨?_, ihpair⟩
      intro w hw
      obtain ⟨-, -, -, b4, -⟩ := ihbounds w hw
      exact slt_of_slt_of_sle heom_lt_next b4
    · cases hW : windowsGo endD (nextMonthStart cur) (m + 1) with
      | nil =>
        rw [hW] at ihlen
        simp at ihlen
      | cons w0 W2 =>
        rw [List.dropLast_cons₂]
        intro w hw
        rcases List.mem_cons.mp hw with hw | hw
        · subst hw
          rfl
        · rw [← hW] at hw
          exact ihdrop w hw
    · obtain ⟨p, hp, hp2⟩ := ihlast
      cases hW : windowsGo endD (nextMonthStart cur) (m + 1) with
      | nil =>
        rw [hW] at ihlen
        simp at ihlen
      | cons w0 W2 =>
        refine ⟨p, ?_, hp2⟩
        rw [List.getLast?_cons_cons]
        rw [hW] at hp
        exact hp
    · exact ⟨(cur, endOfMonth cur), rfl, rfl⟩
    · intro d hd
      constructor
      · rintro ⟨h1, h2⟩
        by_cases hmid : d.monthIndex = cur.monthIndex
        · obtain ⟨hy, hm⟩ := monthIndex_inj hd hv hmid
          refine ⟨(cur, endOfMonth cur), List.mem_cons_self _ _, h1, ?_⟩
          apply sle_same_mi
          · exact hmid
          · show d.day ≤ daysInMonth cur.year cur.month
            rw [← hy, ← hm]
            exact hd.2.2.2
        · have hmige : cur.monthIndex ≤ d.monthIndex :=
            mi_le_of_sle h1 hv.2.2.1 (valid_day_le_31 d hd)
          have hnd : nextMonthStart cur ≤ d := by
            apply sle_of_mi_le_day1
            · rw [hmi_next]
              omega
            · exact nextMonthStart_day cur
            · exact hd.2.2.1
          obtain ⟨w, hw, hw1, hw2⟩ := (ihunion d hd).mp ⟨hnd, h2⟩
          exact ⟨w, List.mem_cons_of_mem _ hw, hw1, hw2⟩
      · rintro ⟨w, hw, hw1, hw2⟩
        rcases List.mem_cons.mp hw with hw | hw
        · subst hw
          exact ⟨hw1, sle_trans hw2 heom_le_end⟩
        · obtain ⟨-, -, -, b4, b5⟩ := ihbounds w hw
          exact ⟨sle_trans hcur_le_next (sle_trans b4 hw1), sle_trans hw2 b5⟩

/-- C4: for every pair of valid dates `s ≤ e`, the scheduler produces exactly
`monthDiff(s, e) + 1` windows that start at `s`, are ordered, contiguous
(each window starts the day after the previous window's end), pairwise
non-overlapping, with each non-final window ending on the last day of its
starting calendar month and the final window ending exactly at `e`, and whose
union is exactly the set of valid dates in `[s, e]`. -/
theorem C4_windows_partition (s e : SDate) (hs : s.valid) (he : e.valid)
    (hse : s ≤ e) : WindowsClaim s e := by
  have hmile : s.monthIndex ≤ e.monthIndex :=
    mi_le_of_sle hse hs.2.2.1 (valid_day_le_31 e he)
  have hfuel : (differenceInCalendarMonths e s + 1).toNat =
      (e.monthIndex - s.monthIndex) + 1 := by
    unfold differenceInCalendarMonths
    omega
  have hdiff : (differenceInCalendarMonths e s).toNat =
      e.monthIndex - s.monthIndex := by
    unfold differenceInCalendarMonths
    omega
  have hmi : s.monthIndex + (e.monthIndex - s.monthIndex) = e.monthIndex := by
    omega
  have hday : e.monthIndex - s.monthIndex = 0 → s.day ≤ e.day := by
    intro h0
    exact day_le_of_sle_same_mi hse (by omega)
  obtain ⟨hlen, hbounds, hchain, hpair, hdrop, hlast, hhead, hunion⟩ :=
    windowsGo_spec e he (e.monthIndex - s.monthIndex) s hs hmi hday
  unfold WindowsClaim vsExportWindows
  rw [hfuel, hdiff]
  exact ⟨hlen, fun w hw => (hbounds w hw).2.2.1, hchain, hpair, hdrop,
    hlast, hhead, hunion⟩

/-- C4 witness: the range 2022-01-01 .. 2022-03-15 (spec scenario A: three
windows, the last ending exactly 2022-03-15). -/
theorem C4_witness : WindowsClaim ⟨2022, 1, 1⟩ ⟨2022, 3, 15⟩ :=
  C4_windows_partition ⟨2022, 1, 1⟩ ⟨2022, 3, 15⟩
    (by decide) (by decide) (by decide)

end VSE
